import Mathlib

/-!
Verification of `plugins/modules/slack.py` (community.general Slack notification
module).  The Python source is shallowly embedded below: Python dictionaries
become insertion-ordered association lists, JSON values become the inductive
type `SVal`, fallible code returns `Except`, and the network side effects of
`main` are modelled by an explicit trace of `NetOp` operations driven by an
oracle `World` that supplies every HTTP response the code would read.
-/

namespace Slack

/-- The double-quote character (ASCII 34). -/
def dquote : Char := Char.ofNat 34

/-- The single-quote (apostrophe) character (ASCII 39). -/
def squote : Char := Char.ofNat 39

/-- Python/JSON values as they occur in this module: `None`, booleans,
integers, strings, lists and (insertion-ordered) dictionaries. -/
inductive SVal where
  | null : SVal
  | bool : Bool → SVal
  | num : Int → SVal
  | str : String → SVal
  | arr : List SVal → SVal
  | dict : List (String × SVal) → SVal
deriving Repr

mutual

/-- Boolean equality on `SVal` (structural). -/
def svalBeq : SVal → SVal → Bool
  | SVal.null, SVal.null => true
  | SVal.bool x, SVal.bool y => x == y
  | SVal.num x, SVal.num y => x == y
  | SVal.str x, SVal.str y => x == y
  | SVal.arr xs, SVal.arr ys => svalBeqList xs ys
  | SVal.dict xs, SVal.dict ys => svalBeqDict xs ys
  | _, _ => false

/-- Boolean equality on lists of `SVal`. -/
def svalBeqList : List SVal → List SVal → Bool
  | [], [] => true
  | x :: xs, y :: ys => svalBeq x y && svalBeqList xs ys
  | _, _ => false

/-- Boolean equality on association lists of `SVal`. -/
def svalBeqDict : List (String × SVal) → List (String × SVal) → Bool
  | [], [] => true
  | (k1, v1) :: xs, (k2, v2) :: ys => k1 == k2 && svalBeq v1 v2 && svalBeqDict xs ys
  | _, _ => false

end

mutual

/-- Decidable structural equality on `SVal`. -/
def svalDecEq : (a b : SVal) → Decidable (a = b)
  | SVal.null, SVal.null => isTrue rfl
  | SVal.null, SVal.bool _ => isFalse (by intro h; exact SVal.noConfusion h)
  | SVal.null, SVal.num _ => isFalse (by intro h; exact SVal.noConfusion h)
  | SVal.null, SVal.str _ => isFalse (by intro h; exact SVal.noConfusion h)
  | SVal.null, SVal.arr _ => isFalse (by intro h; exact SVal.noConfusion h)
  | SVal.null, SVal.dict _ => isFalse (by intro h; exact SVal.noConfusion h)
  | SVal.bool _, SVal.null => isFalse (by intro h; exact SVal.noConfusion h)
  | SVal.bool x, SVal.bool y =>
      match Bool.decEq x y with
      | isTrue h => isTrue (by rw [h])
      | isFalse h => isFalse (by intro he; injection he with e; exact h e)
  | SVal.bool _, SVal.num _ => isFalse (by intro h; exact SVal.noConfusion h)
  | SVal.bool _, SVal.str _ => isFalse (by intro h; exact SVal.noConfusion h)
  | SVal.bool _, SVal.arr _ => isFalse (by intro h; exact SVal.noConfusion h)
  | SVal.bool _, SVal.dict _ => isFalse (by intro h; exact SVal.noConfusion h)
  | SVal.num _, SVal.null => isFalse (by intro h; exact SVal.noConfusion h)
  | SVal.num _, SVal.bool _ => isFalse (by intro h; exact SVal.noConfusion h)
  | SVal.num x, SVal.num y =>
      match Int.decEq x y with
      | isTrue h => isTrue (by rw [h])
      | isFalse h => isFalse (by intro he; injection he with e; exact h e)
  | SVal.num _, SVal.str _ => isFalse (by intro h; exact SVal.noConfusion h)
  | SVal.num _, SVal.arr _ => isFalse (by intro h; exact SVal.noConfusion h)
  | SVal.num _, SVal.dict _ => isFalse (by intro h; exact SVal.noConfusion h)
  | SVal.str _, SVal.null => isFalse (by intro h; exact SVal.noConfusion h)
  | SVal.str _, SVal.bool _ => isFalse (by intro h; exact SVal.noConfusion h)
  | SVal.str _, SVal.num _ => isFalse (by intro h; exact SVal.noConfusion h)
  | SVal.str x, SVal.str y =>
      match String.decEq x y with
      | isTrue h => isTrue (by rw [h])
      | isFalse h => isFalse (by intro he; injection he with e; exact h e)
  | SVal.str _, SVal.arr _ => isFalse (by intro h; exact SVal.noConfusion h)
  | SVal.str _, SVal.dict _ => isFalse (by intro h; exact SVal.noConfusion h)
  | SVal.arr _, SVal.null => isFalse (by intro h; exact SVal.noConfusion h)
  | SVal.arr _, SVal.bool _ => isFalse (by intro h; exact SVal.noConfusion h)
  | SVal.arr _, SVal.num _ => isFalse (by intro h; exact SVal.noConfusion h)
  | SVal.arr _, SVal.str _ => isFalse (by intro h; exact SVal.noConfusion h)
  | SVal.arr xs, SVal.arr ys =>
      match svalDecEqList xs ys with
      | isTrue h => isTrue (by rw [h])
      | isFalse h => isFalse (by intro he; injection he with e; exact h e)
  | SVal.arr _, SVal.dict _ => isFalse (by intro h; exact SVal.noConfusion h)
  | SVal.dict _, SVal.null => isFalse (by intro h; exact SVal.noConfusion h)
  | SVal.dict _, SVal.bool _ => isFalse (by intro h; exact SVal.noConfusion h)
  | SVal.dict _, SVal.num _ => isFalse (by intro h; exact SVal.noConfusion h)
  | SVal.dict _, SVal.str _ => isFalse (by intro h; exact SVal.noConfusion h)
  | SVal.dict _, SVal.arr _ => isFalse (by intro h; exact SVal.noConfusion h)
  | SVal.dict xs, SVal.dict ys =>
      match svalDecEqDict xs ys with
      | isTrue h => isTrue (by rw [h])
      | isFalse h => isFalse (by intro he; injection he with e; exact h e)

/-- Decidable equality on lists of `SVal`. -/
def svalDecEqList : (xs ys : List SVal) → Decidable (xs = ys)
  | [], [] => isTrue rfl
  | [], _ :: _ => isFalse (by intro h; exact List.noConfusion h)
  | _ :: _, [] => isFalse (by intro h; exact List.noConfusion h)
  | x :: xs, y :: ys =>
      match svalDecEq x y, svalDecEqList xs ys with
      | isTrue h1, isTrue h2 => isTrue (by rw [h1, h2])
      | isFalse h1, _ => isFalse (by intro he; injection he with e1 e2; exact h1 e1)
      | _, isFalse h2 => isFalse (by intro he; injection he with e1 e2; exact h2 e2)

/-- Decidable equality on association lists of `SVal`. -/
def svalDecEqDict : (xs ys : List (String × SVal)) → Decidable (xs = ys)
  | [], [] => isTrue rfl
  | [], _ :: _ => isFalse (by intro h; exact List.noConfusion h)
  | _ :: _, [] => isFalse (by intro h; exact List.noConfusion h)
  | (k1, v1) :: xs, (k2, v2) :: ys =>
      match String.decEq k1 k2, svalDecEq v1 v2, svalDecEqDict xs ys with
      | isTrue e1, isTrue e2, isTrue e3 => isTrue (by rw [e1, e2, e3])
      | isFalse e1, _, _ => isFalse (by
          intro he
          injection he with h1 h2
          injection h1 with hk hv
          exact e1 hk)
      | _, isFalse e2, _ => isFalse (by
          intro he
          injection he with h1 h2
          injection h1 with hk hv
          exact e2 hv)
      | _, _, isFalse e3 => isFalse (by
          intro he
          injection he with h1 h2
          exact e3 h2)

end

instance : DecidableEq SVal := svalDecEq

/-- A Python dictionary with string keys, as an insertion-ordered association
list whose keys are unique by construction of the operations below. -/
abbrev Dict := List (String × SVal)

/-- An attachment object (a Python dict). -/
abbrev Att := Dict

/-- `d[k]`-style lookup (first binding wins; keys are unique). -/
def dictGet (d : Dict) (k : String) : Option SVal :=
  match d with
  | [] => none
  | (k0, v) :: rest => if k0 = k then some v else dictGet rest k

/-- Python `k in d`. -/
def hasKey (d : Dict) (k : String) : Bool :=
  (dictGet d k).isSome

/-- Python `d.get(k, dflt)`. -/
def dictGetD (d : Dict) (k : String) (dflt : SVal) : SVal :=
  (dictGet d k).getD dflt

/-- Python `d[k] = v`: overwrite in place (keeping the key position) or
append a fresh binding at the end, exactly like a CPython dict. -/
def dictSet (d : Dict) (k : String) (v : SVal) : Dict :=
  match d with
  | [] => [(k, v)]
  | (k0, v0) :: rest => if k0 = k then (k0, v) :: rest else (k0, v0) :: dictSet rest k v

/-- Python `"".join(parts)`: concatenation of the parts in order. -/
def strJoin : List String → String
  | [] => ""
  | s :: rest => s ++ strJoin rest

/-- The module's `escape_table` dictionary.  In the Python source it is
`'"': "\""` and `"'": "\'"`: in both entries the backslash inside the Python
string literal merely escapes the quote character itself, so each table value
is the one-character string consisting of the very quote being looked up.
We transcribe those literal values faithfully. -/
def escape_table : List (Char × String) :=
  [(dquote, String.singleton dquote), (squote, String.singleton squote)]

/-- Python `escape_table.get(c, c)`. -/
def escTableGet (c : Char) : String :=
  match escape_table.lookup c with
  | some s => s
  | none => String.singleton c

/-- `escape_quotes(text)`: `"".join(escape_table.get(c, c) for c in text)`. -/
def escape_quotes (text : String) : String :=
  strJoin (text.toList.map escTableGet)

/-- Python `\S`: non-whitespace (complement of space, tab, LF, CR, FF, VT). -/
def isNonWS (c : Char) : Bool :=
  !(c = ' ' || c = Char.ofNat 9 || c = Char.ofNat 10 || c = Char.ofNat 13 ||
    c = Char.ofNat 12 || c = Char.ofNat 11)

/-- Python's `$` anchor in `re.match`: the core pattern must match the whole
string, or the whole string minus a single trailing newline. -/
def dollarAnchored (core : List Char → Bool) (cs : List Char) : Bool :=
  core cs ||
    (match cs.getLast? with
     | some c => c = Char.ofNat 10 && core cs.dropLast
     | none => false)

/-- Core of the regex `xox[abp]-\S+` (full-width match). -/
def xoxCore (cs : List Char) : Bool :=
  match cs with
  | 'x' :: 'o' :: 'x' :: c :: '-' :: rest =>
      (c = 'a' || c = 'b' || c = 'p') && !rest.isEmpty && rest.all isNonWS
  | _ => false

/-- `re.match(r'^xox[abp]-\S+$', token)` in `do_notify_slack`. -/
def xoxMatch (token : String) : Bool :=
  dollarAnchored xoxCore token.toList

/-- A hexadecimal digit, `[A-Fa-f0-9]`. -/
def isHexDigit (c : Char) : Bool :=
  (Char.ofNat 48 ≤ c && c ≤ Char.ofNat 57) ||
  (Char.ofNat 65 ≤ c && c ≤ Char.ofNat 70) ||
  (Char.ofNat 97 ≤ c && c ≤ Char.ofNat 102)

/-- Core of the regex `#([A-Fa-f0-9]{6}|[A-Fa-f0-9]{3})` (full-width match). -/
def hexColorCore (cs : List Char) : Bool :=
  match cs with
  | '#' :: rest => (rest.length = 6 || rest.length = 3) && rest.all isHexDigit
  | _ => false

/-- `is_valid_hex_color(color_choice)`. -/
def is_valid_hex_color (color_choice : String) : Bool :=
  dollarAnchored hexColorCore color_choice.toList

/-- `token.count('/')`. -/
def countSlash (token : String) : Nat :=
  (token.toList.filter (fun c => c = '/')).length

/-- Python truthiness of an `SVal` (`None`, `False`, `0`, `""`, `[]`and the
empty dict are falsy). -/
def pyTruthy : SVal → Bool
  | SVal.null => false
  | SVal.bool b => b
  | SVal.num n => !(n = 0)
  | SVal.str s => !(s = "")
  | SVal.arr xs => !xs.isEmpty
  | SVal.dict kvs => !kvs.isEmpty

/-- Python truthiness of an optional string (`None` and `""` are falsy). -/
def pyTruthyOptStr : Option String → Bool
  | none => false
  | some s => !(s = "")

/-- An optional string as the Python value it denotes (`None` ↦ null). -/
def optSVstr : Option String → SVal
  | none => SVal.null
  | some s => SVal.str s

/-- An optional integer as the Python value it denotes (`None` ↦ null). -/
def optSVint : Option Int → SVal
  | none => SVal.null
  | some n => SVal.num n

mutual

/-- `recursive_escape_quotes(obj, keys)`.  A fresh structure is built; string
values sitting under one of `keys` inside a dictionary are passed through
`escape_quotes`; the input tree is never written to. -/
def recEscVal (keys : List String) : SVal → SVal
  | SVal.dict kvs => SVal.dict (recEscDict keys kvs)
  | SVal.arr xs => SVal.arr (recEscArr keys xs)
  | v => v

def recEscDict (keys : List String) : List (String × SVal) → List (String × SVal)
  | [] => []
  | (k, v) :: rest =>
      (match v with
       | SVal.str s =>
           if k ∈ keys then (k, SVal.str (escape_quotes s)) else (k, recEscVal keys (SVal.str s))
       | v => (k, recEscVal keys v)) :: recEscDict keys rest

def recEscArr (keys : List String) : List SVal → List SVal
  | [] => []
  | v :: rest => recEscVal keys v :: recEscArr keys rest

end

/-- JSON escaping of one character inside a string literal.  (Control
characters other than the ones below never occur in the claims and their
`\uXXXX` rendering is not modelled.) -/
def jsonEscChar (c : Char) : String :=
  if c = dquote then String.mk ['\\', dquote]
  else if c = '\\' then String.mk ['\\', '\\']
  else String.singleton c

/-- A JSON string literal. -/
def jsonOfStr (s : String) : String :=
  String.singleton dquote ++ strJoin (s.toList.map jsonEscChar) ++ String.singleton dquote

mutual

/-- `module.jsonify(payload)` and `json.dumps(...)`: serialisation with the
default separators `", "` and `": "`. -/
def jsonify : SVal → String
  | SVal.null => "null"
  | SVal.bool true => "true"
  | SVal.bool false => "false"
  | SVal.num n => toString n
  | SVal.str s => jsonOfStr s
  | SVal.arr xs => "[" ++ jsonifyArr xs ++ "]"
  | SVal.dict kvs => "\x7b" ++ jsonifyDict kvs ++ "\x7d"

/-- Comma-joined serialisation of array elements. -/
def jsonifyArr : List SVal → String
  | [] => ""
  | [v] => jsonify v
  | v :: rest => jsonify v ++ ", " ++ jsonifyArr rest

/-- Comma-joined serialisation of dictionary entries. -/
def jsonifyDict : List (String × SVal) → String
  | [] => ""
  | [(k, v)] => jsonOfStr k ++ ": " ++ jsonify v
  | (k, v) :: rest => jsonOfStr k ++ ": " ++ jsonify v ++ ", " ++ jsonifyDict rest

end

/-- Python `str(v)` as used by `"%s" % v` in the module's error messages:
`None`/`True`/`False` render in Python style, a string renders without
quotes, containers render via their JSON form.  (CPython would render nested
containers with `repr` single quotes; no claim depends on that nuance.) -/
def pyStr : SVal → String
  | SVal.null => "None"
  | SVal.bool true => "True"
  | SVal.bool false => "False"
  | SVal.num n => toString n
  | SVal.str s => s
  | v => jsonify v

/-- `OLD_SLACK_INCOMING_WEBHOOK % (domain, token)`. -/
def OLD_SLACK_INCOMING_WEBHOOK (domain token : String) : String :=
  "https://" ++ domain ++ "/services/hooks/incoming-webhook?token=" ++ token

/-- `SLACK_INCOMING_WEBHOOK % token`. -/
def SLACK_INCOMING_WEBHOOK (token : String) : String :=
  "https://hooks.slack.com/services/" ++ token

def SLACK_POSTMESSAGE_WEBAPI : String := "https://slack.com/api/chat.postMessage"

def SLACK_UPDATEMESSAGE_WEBAPI : String := "https://slack.com/api/chat.update"

def SLACK_CONVERSATIONS_HISTORY_WEBAPI : String := "https://slack.com/api/conversations.history"

def SLACK_GET_UPLOAD_URL_EXTERNAL : String := "https://slack.com/api/files.getUploadURLExternal"

def SLACK_COMPLETE_UPLOAD_EXTERNAL : String := "https://slack.com/api/files.completeUploadExternal"

def SLACK_CONVERSATIONS_LIST_WEBAPI : String := "https://slack.com/api/conversations.list"

/-- An uncaught Python exception.  `keyError` is raised by `d[k]` on a
missing key; `typeError` stands for the exceptions CPython raises when a
value of the wrong shape reaches an operation (iterating a non-string in
`escape_quotes`, attribute access on a non-dict, and similar). -/
inductive PyErr where
  | keyError : String → PyErr
  | typeError : PyErr
deriving Repr, DecidableEq

/-- The fields of one attachment escaped in `build_payload_for_slack`. -/
def attachment_keys_to_escape : List String :=
  ["title", "text", "author_name", "pretext", "fallback"]

/-- The block fields escaped in `build_payload_for_slack`. -/
def block_keys_to_escape : List String :=
  ["text", "alt_text"]

/-- One iteration of the loop
`if key in attachment: attachment[key] = escape_quotes(attachment[key])`. -/
def escStep (a : Att) (k : String) : Except PyErr Att :=
  match dictGet a k with
  | none => Except.ok a
  | some (SVal.str s) => Except.ok (dictSet a k (SVal.str (escape_quotes s)))
  | some _ => Except.error PyErr.typeError

/-- The `for key in attachment_keys_to_escape` loop over one attachment. -/
def escLoop (a : Att) : List String → Except PyErr Att
  | [] => Except.ok a
  | k :: ks =>
      match escStep a k with
      | Except.error e => Except.error e
      | Except.ok a1 => escLoop a1 ks

/-- The whole per-attachment body of the attachment loop in
`build_payload_for_slack`: escape the listed fields, then
`if 'fallback' not in attachment: attachment['fallback'] = attachment['text']`
(an unguarded `[]` lookup of `text`). -/
def processAttachment (a : Att) : Except PyErr Att :=
  match escLoop a attachment_keys_to_escape with
  | Except.error e => Except.error e
  | Except.ok a1 =>
      if hasKey a1 "fallback" then Except.ok a1
      else
        match dictGet a1 "text" with
        | some v => Except.ok (dictSet a1 "fallback" v)
        | none => Except.error (PyErr.keyError "text")

/-- Process a list of attachments in order, stopping at the first raised
exception. -/
def processAll : List Att → Except PyErr (List Att)
  | [] => Except.ok []
  | a :: rest =>
      match processAttachment a with
      | Except.error e => Except.error e
      | Except.ok a1 =>
          match processAll rest with
          | Except.error e => Except.error e
          | Except.ok l => Except.ok (a1 :: l)

/-- Whether the value an attachment holds under `k` (if any) is a string, so
that escaping it cannot raise. -/
def wtAt (a : Att) (k : String) : Bool :=
  match dictGet a k with
  | none => true
  | some (SVal.str _) => true
  | some _ => false

/-- Whether every escapable field of an attachment is a string. -/
def attWellTyped (a : Att) : Bool :=
  attachment_keys_to_escape.all (wtAt a)

/-- `payload['attachments'].append(v)`: the payload's `attachments` entry is
a list by construction at every call site; appending mutates it in place. -/
def dictAppendArr (d : Dict) (k : String) (v : SVal) : Dict :=
  match dictGet d k with
  | some (SVal.arr xs) => dictSet d k (SVal.arr (xs ++ [v]))
  | _ => d

/-- Append all processed attachments to `payload['attachments']` in order. -/
def foldAppend (d : Dict) (l : List Att) : Dict :=
  match l with
  | [] => d
  | a :: rest => foldAppend (dictAppendArr d "attachments" (SVal.dict a)) rest

/-- `payload[k] = v` for an optional string parameter, guarded by
`if v is not None`. -/
def optSetStr (d : Dict) (k : String) (v : Option String) : Dict :=
  match v with
  | none => d
  | some s => dictSet d k (SVal.str s)

/-- `payload[k] = v` for an optional integer parameter, guarded by
`if v is not None`. -/
def optSetInt (d : Dict) (k : String) (v : Option Int) : Dict :=
  match v with
  | none => d
  | some n => dictSet d k (SVal.num n)

/-- `channel.startswith(('#', '@', 'C0', 'GF', 'G0', 'CP'))`. -/
def channelHasPrefix (ch : String) : Bool :=
  ch.startsWith "#" || ch.startsWith "@" || ch.startsWith "C0" ||
  ch.startsWith "GF" || ch.startsWith "G0" || ch.startsWith "CP"

/-- The synthetic attachment built for a non-`normal` color:
`dict(text=escape_quotes(text), color=color, mrkdwn_in=["text"])`. -/
def synthAttachment (text color : String) : SVal :=
  SVal.dict [("text", SVal.str (escape_quotes text)), ("color", SVal.str color),
             ("mrkdwn_in", SVal.arr [SVal.str "text"])]

/-- The initial `payload` value of `build_payload_for_slack` (the
`color == "normal"` / other-color / no-text three-way branch). -/
def initialPayload (text : Option String) (color : String) : Dict :=
  match text with
  | none => []
  | some t =>
      if color = "normal" then [("text", SVal.str (escape_quotes t))]
      else [("attachments", SVal.arr [synthAttachment t color])]

/-- The `if channel is not None` block with its `prepend_hash` three-way
dispatch (a `prepend_hash` outside the three known values assigns nothing,
which `main` never produces). -/
def channelStep (d : Dict) (channel : Option String) (prepend_hash : String) : Dict :=
  match channel with
  | none => d
  | some ch =>
      if prepend_hash = "auto" then
        if channelHasPrefix ch then dictSet d "channel" (SVal.str ch)
        else dictSet d "channel" (SVal.str ("#" ++ ch))
      else if prepend_hash = "always" then dictSet d "channel" (SVal.str ("#" ++ ch))
      else if prepend_hash = "never" then dictSet d "channel" (SVal.str ch)
      else d

/-- The icon block: `payload['icon_emoji'] = icon_emoji` when set, otherwise
`payload['icon_url'] = icon_url` — note the else branch runs even when
`icon_url` is `None`, binding the key to null. -/
def iconStep (d : Dict) (icon_url icon_emoji : Option String) : Dict :=
  match icon_emoji with
  | some e => dictSet d "icon_emoji" (SVal.str e)
  | none => dictSet d "icon_url" (optSVstr icon_url)

/-- All the single-key optional assignments between the text/color branch and
the attachment loop of `build_payload_for_slack`, in source order. -/
def midSection (d : Dict) (channel thread_id username icon_url icon_emoji : Option String)
    (link_names : Option Int) (parse : Option String) (message_id : Option String)
    (prepend_hash : String) : Dict :=
  optSetStr
    (optSetStr
      (optSetInt
        (iconStep
          (optSetStr
            (optSetStr (channelStep d channel prepend_hash) "thread_ts" thread_id)
            "username" username)
          icon_url icon_emoji)
        "link_names" link_names)
      "parse" parse)
    "ts" message_id

/-- The result of `build_payload_for_slack`, together with the caller-visible
post-state of the mutable arguments: the attachment dictionaries are mutated
in place (escaped fields, inserted `fallback`) and appended to the payload by
reference, so `attachmentsAfter` is their content after the call;
`recursive_escape_quotes` builds a fresh tree and never writes to the
caller's `blocks`, so `blocksAfter` is the unchanged input. -/
structure BuildOut where
  payload : Dict
  attachmentsAfter : Option (List Att)
  blocksAfter : Option (List SVal)
deriving Repr, DecidableEq

/-- The attachment section of `build_payload_for_slack`: ensure the payload
has an `attachments` list (`if 'attachments' not in payload`), process every
supplied attachment in order and append the processed dictionaries.  Returns
the updated payload together with the caller-visible attachment post-state. -/
def attachStep (d : Dict) (attachments : Option (List Att)) :
    Except PyErr (Dict × Option (List Att)) :=
  match attachments with
  | none => Except.ok (d, none)
  | some atts =>
      match processAll atts with
      | Except.error e => Except.error e
      | Except.ok atts1 =>
          Except.ok
            (foldAppend
              (if hasKey d "attachments" then d else dictSet d "attachments" (SVal.arr []))
              atts1,
             some atts1)

/-- The blocks section of `build_payload_for_slack`:
`payload['blocks'] = recursive_escape_quotes(blocks, [...])`; the caller's
blocks are read but never written. -/
def blocksStep (d : Dict) (blocks : Option (List SVal)) : Dict × Option (List SVal) :=
  match blocks with
  | none => (d, none)
  | some bs => (dictSet d "blocks" (SVal.arr (recEscArr block_keys_to_escape bs)), some bs)

/-- `build_payload_for_slack(...)` (lines 355-417 of the source). -/
def build_payload_for_slack (text channel thread_id username icon_url icon_emoji : Option String)
    (link_names : Option Int) (parse : Option String) (color : String)
    (attachments : Option (List Att)) (blocks : Option (List SVal))
    (message_id : Option String) (prepend_hash : String) : Except PyErr BuildOut :=
  match attachStep (midSection (initialPayload text color) channel thread_id username
      icon_url icon_emoji link_names parse message_id prepend_hash) attachments with
  | Except.error e => Except.error e
  | Except.ok (d1, attachmentsAfter) =>
      match blocksStep d1 blocks with
      | (d2, blocksAfter) => Except.ok ⟨d2, attachmentsAfter, blocksAfter⟩

/-- A network request issued through `fetch_url`.  Query strings are carried
structurally (percent-encoding of `urlencode` is not re-modelled; no claim
depends on it). -/
inductive NetOp where
  | get (base : String) (query : List (String × String)) (headers : List (String × String))
  | post (url : String) (headers : List (String × String)) (data : String)
deriving Repr, DecidableEq

/-- Whether a request is a network write (an HTTP POST). -/
def isPost : NetOp → Bool
  | NetOp.post _ _ _ => true
  | NetOp.get _ _ _ => false

/-- The network writes of a trace. -/
def netWrites (t : List NetOp) : List NetOp := t.filter isPost

/-- How one invocation of the module terminates: `exit_json`, `fail_json`
(only the `msg` argument is retained; no claim reads the other keyword
arguments), an uncaught Python exception, or `modelExhausted` when the
response oracle has no entry for a request the code would make (claims only
concern runs the oracle fully covers). -/
inductive Outcome where
  | exitJson (fields : List (String × SVal))
  | failJson (msg : String)
  | pyError (e : PyErr)
  | modelExhausted
deriving Repr, DecidableEq

/-- The response `fetch_url` produces for the single message-send POST of
`do_notify_slack`: `info['status']`, `info['msg']` and the parsed body. -/
structure NotifyWorld where
  status : Nat
  infoMsg : String
  body : SVal
deriving Repr, DecidableEq

/-- A string wrapped in single quotes, as Python `repr` renders it. -/
def sq (s : String) : String :=
  String.singleton squote ++ s ++ String.singleton squote

/-- Rendering of an uncaught exception by `"%s" % str(e)` (the precise
CPython `TypeError` message text is not claim-relevant). -/
def pyErrStr : PyErr → String
  | PyErr.keyError k => sq k
  | PyErr.typeError => "TypeError"

/-- `str(v)` of an optional string (Python renders `None` as `"None"`). -/
def qstr : Option String → String
  | none => "None"
  | some s => s

/-- The configuration error raised for a legacy token without a domain. -/
def legacyTokenErrMsg : String :=
  "Slack has updated its webhook API.  You need to specify a token of the form " ++
  "XXXX/YYYY/ZZZZ in your playbook"

/-- The priority-ordered credential classification at the top of
`do_notify_slack` (lines 446-458): two or more slashes → new-style webhook;
else the `xox[abp]-\S+` match → WebAPI (update endpoint iff the payload
carries `ts`); else legacy webhook, failing when the domain is falsy.
Returns the target URI and the `use_webapi` flag. -/
def classifyRoute (domain : Option String) (token : String) (payload : Dict) :
    Except Outcome (String × Bool) :=
  if countSlash token ≥ 2 then Except.ok (SLACK_INCOMING_WEBHOOK token, false)
  else if xoxMatch token then
    Except.ok
      ((if hasKey payload "ts" then SLACK_UPDATEMESSAGE_WEBAPI else SLACK_POSTMESSAGE_WEBAPI),
       true)
  else if pyTruthyOptStr domain then
    Except.ok (OLD_SLACK_INCOMING_WEBHOOK (domain.getD "") token, false)
  else Except.error (Outcome.failJson legacyTokenErrMsg)

/-- The headers of the notification POST: content type and accept, plus the
bearer token exactly when the WebAPI path was selected. -/
def notifyHeaders (use_webapi : Bool) (token : String) : List (String × String) :=
  [("Content-Type", "application/json; charset=UTF-8"), ("Accept", "application/json")] ++
  (if use_webapi then [("Authorization", "Bearer " ++ token)] else [])

/-- `do_notify_slack(module, domain, token, payload)` (lines 446-481). -/
def do_notify_slack (nw : NotifyWorld) (domain : Option String) (token : String)
    (payload : Dict) : List NetOp × Except Outcome SVal :=
  match classifyRoute domain token payload with
  | Except.error o => ([], Except.error o)
  | Except.ok (slack_uri, use_webapi) =>
      let data := jsonify (SVal.dict payload)
      let trace := [NetOp.post slack_uri (notifyHeaders use_webapi token) data]
      if nw.status ≠ 200 then
        let obscured := if use_webapi then slack_uri else SLACK_INCOMING_WEBHOOK "[obscured]"
        (trace, Except.error (Outcome.failJson
          (" failed to send " ++ data ++ " to " ++ obscured ++ ": " ++ nw.infoMsg)))
      else if use_webapi then (trace, Except.ok nw.body)
      else (trace, Except.ok (SVal.dict [("webhook", SVal.str "ok")]))

/-- `get_slack_message(module, token, channel, ts)` (lines 420-443), driven
by the history-endpoint response oracle (status, parsed body). -/
def get_slack_message (histStatus : Nat) (histBody : SVal) (token : String)
    (channel : Option String) (ts : String) : List NetOp × Except Outcome SVal :=
  let headers := [("Content-Type", "application/json; charset=UTF-8"),
                  ("Accept", "application/json"), ("Authorization", "Bearer " ++ token)]
  let q := [("channel", qstr channel), ("ts", ts), ("limit", "1"), ("inclusive", "true")]
  let trace := [NetOp.get SLACK_CONVERSATIONS_HISTORY_WEBAPI q headers]
  if histStatus ≠ 200 then
    (trace, Except.error (Outcome.failJson "failed to get slack message"))
  else
    match histBody with
    | SVal.dict d =>
        if dictGet d "ok" = some (SVal.bool false) then
          (trace, Except.error (Outcome.failJson
            ("failed to get slack message: " ++ pyStr (SVal.dict d))))
        else
          match dictGet d "messages" with
          | some (SVal.arr msgs) =>
              if msgs.length < 1 then
                (trace, Except.error (Outcome.failJson ("no messages matching ts: " ++ ts)))
              else if msgs.length > 1 then
                (trace, Except.error (Outcome.failJson
                  ("more than 1 message matching ts: " ++ ts)))
              else (trace, Except.ok (msgs.headD SVal.null))
          | some _ => (trace, Except.error (Outcome.pyError PyErr.typeError))
          | none => (trace, Except.error (Outcome.pyError (PyErr.keyError "messages")))
    | _ => (trace, Except.error (Outcome.pyError PyErr.typeError))

/-- One page of the `conversations.list` pagination oracle: HTTP status,
`info['msg']`, the parsed body (`none` models a JSON decode failure) and the
raw body text used in the decode-failure message. -/
structure ListPage where
  status : Nat
  infoMsg : String
  body : Option SVal
  raw : String
deriving Repr, DecidableEq

/-- The `for channel in channels` scan of `get_channel_id`: the first entry
whose `name` equals the requested channel name wins and its `id` is
returned. -/
def scanChannels (chName : Option String) : List SVal → Except PyErr (Option SVal)
  | [] => Except.ok none
  | SVal.dict c :: rest =>
      if dictGetD c "name" SVal.null = optSVstr chName then
        Except.ok (some (dictGetD c "id" SVal.null))
      else scanChannels chName rest
  | _ :: _ => Except.error PyErr.typeError

/-- `data.get("response_metadata", dict()).get("next_cursor")`. -/
def nextCursor (d : Dict) : Except PyErr SVal :=
  match dictGetD d "response_metadata" (SVal.dict []) with
  | SVal.dict m => Except.ok (dictGetD m "next_cursor" SVal.null)
  | _ => Except.error PyErr.typeError

/-- The fixed query parameters of `get_channel_id`. -/
def gciBaseParams : List (String × String) :=
  [("types", "public_channel,private_channel,mpim,im"), ("limit", "1000"),
   ("exclude_archived", "true")]

/-- The query of one pagination request (`params["cursor"] = cursor` is only
executed for a truthy cursor). -/
def gciQuery (cursor : Option SVal) : List (String × String) :=
  gciBaseParams ++
    (match cursor with
     | some c => if pyTruthy c then [("cursor", pyStr c)] else []
     | none => [])

/-- The `while True` pagination loop of `get_channel_id` (lines 484-521),
consuming one oracle page per request. -/
def gciLoop (chName : Option String) (headers : List (String × String)) :
    Option SVal → List ListPage → List NetOp × Except Outcome SVal
  | _, [] => ([], Except.error Outcome.modelExhausted)
  | cursor, pg :: rest =>
      let op := NetOp.get SLACK_CONVERSATIONS_LIST_WEBAPI (gciQuery cursor) headers
      if pg.status ≠ 200 then
        ([op], Except.error (Outcome.failJson
          ("Failed to retrieve channels: " ++ pg.infoMsg ++ " (HTTP " ++
           toString pg.status ++ ")")))
      else
        match pg.body with
        | none => ([op], Except.error (Outcome.failJson ("JSON decode error: " ++ pg.raw)))
        | some (SVal.dict d) =>
            if !pyTruthy (dictGetD d "ok" SVal.null) then
              ([op], Except.error (Outcome.failJson
                ("Slack API error: " ++ pyStr (dictGetD d "error" (SVal.str "Unknown error")))))
            else
              match dictGetD d "channels" (SVal.arr []) with
              | SVal.arr chs =>
                  match scanChannels chName chs with
                  | Except.error e => ([op], Except.error (Outcome.pyError e))
                  | Except.ok (some cid) => ([op], Except.ok cid)
                  | Except.ok none =>
                      match nextCursor d with
                      | Except.error e => ([op], Except.error (Outcome.pyError e))
                      | Except.ok c =>
                          if pyTruthy c then
                            let (t, r) := gciLoop chName headers (some c) rest
                            (op :: t, r)
                          else
                            ([op], Except.error (Outcome.failJson
                              ("Channel named " ++ sq (qstr chName) ++ " not found.")))
              | _ => ([op], Except.error (Outcome.pyError PyErr.typeError))
        | some _ => ([op], Except.error (Outcome.pyError PyErr.typeError))

/-- `get_channel_id(module, token, channel_name)`. -/
def get_channel_id (pages : List ListPage) (token : String) (chName : Option String) :
    List NetOp × Except Outcome SVal :=
  gciLoop chName [("Authorization", "Bearer " ++ token)] none pages

/-- The `upload_file` sub-options of the module (all but `path` optional). -/
structure UploadFileOpts where
  path : String
  alt_text : Option String
  snippet_type : Option String
  initial_comment : Option String
  thread_ts : Option String
  title : Option String
deriving Repr, DecidableEq

/-- `os.path.basename` for the slash-separated paths this module handles. -/
def osBasename (p : String) : String :=
  String.mk ((p.toList.reverse.takeWhile (fun c => !(c = '/'))).reverse)

/-- The full response oracle for one invocation of `main`: the history
lookup, the notification POST, the local file system, the three upload steps
and the channel-list pages. -/
structure World where
  histStatus : Nat
  histBody : SVal
  notify : NotifyWorld
  fsExists : Bool
  fsSize : Nat
  fileContent : Option String
  upStatus1 : Nat
  upMsg1 : String
  upBody1 : Option SVal
  upRaw1 : String
  upStatus2 : Nat
  upMsg2 : String
  listPages : List ListPage
  upStatus3 : Nat
  upMsg3 : String
  upBody3 : Option SVal
  upRaw3 : String
deriving Repr, DecidableEq

/-- `upload_file_to_slack(module, token, channel, file_upload)`
(lines 524-618).  `module.fail_json` raises `SystemExit`, which the
function's own `except Exception` does not catch; uncaught `KeyError` or
`TypeError` raised inside it are caught there and re-reported as
`"Error uploading file: %s"`. -/
def upload_file_to_slack (w : World) (token : String) (channel : Option String)
    (fu : UploadFileOpts) : List NetOp × Except Outcome SVal :=
  if !w.fsExists then
    ([], Except.error (Outcome.failJson ("File not found: " ++ fu.path)))
  else
    let headers1 := [("Authorization", "Bearer " ++ token),
                     ("Content-Type", "application/x-www-form-urlencoded")]
    let params1 := [("filename", osBasename fu.path), ("length", toString w.fsSize)] ++
      (if pyTruthyOptStr fu.alt_text then [("alt_text", fu.alt_text.getD "")] else []) ++
      (if pyTruthyOptStr fu.snippet_type then [("snippet_type", fu.snippet_type.getD "")] else [])
    let op1 := NetOp.get SLACK_GET_UPLOAD_URL_EXTERNAL params1 headers1
    if w.upStatus1 ≠ 200 then
      ([op1], Except.error (Outcome.failJson
        ("Error retrieving upload URL: " ++ w.upMsg1 ++ " (HTTP " ++ toString w.upStatus1 ++ ")")))
    else
      match w.upBody1 with
      | none => ([op1], Except.error (Outcome.failJson
          ("The Slack API response is not valid JSON: " ++ w.upRaw1)))
      | some (SVal.dict d1) =>
          if !pyTruthy (dictGetD d1 "ok" SVal.null) then
            ([op1], Except.error (Outcome.failJson
              ("Failed to retrieve upload URL: " ++ pyStr (dictGetD d1 "error" SVal.null))))
          else
            match dictGet d1 "upload_url" with
            | none => ([op1], Except.error (Outcome.failJson
                ("Error uploading file: " ++ sq "upload_url")))
            | some uu =>
                match dictGet d1 "file_id" with
                | none => ([op1], Except.error (Outcome.failJson
                    ("Error uploading file: " ++ sq "file_id")))
                | some fid =>
                    match w.fileContent with
                    | none => ([op1], Except.error (Outcome.failJson
                        ("The file " ++ fu.path ++ " is not found.")))
                    | some content =>
                        let op2 := NetOp.post (pyStr uu)
                          [("Content-Type", "application/octet-stream")] content
                        if w.upStatus2 ≠ 200 then
                          ([op1, op2], Except.error (Outcome.failJson
                            ("Error during file upload: " ++ w.upMsg2 ++ " (HTTP " ++
                             toString w.upStatus2 ++ ")")))
                        else
                          let (tc, rc) := get_channel_id w.listPages token channel
                          match rc with
                          | Except.error (Outcome.pyError e) =>
                              ([op1, op2] ++ tc, Except.error (Outcome.failJson
                                ("Error uploading file: " ++ pyErrStr e)))
                          | Except.error o => ([op1, op2] ++ tc, Except.error o)
                          | Except.ok cid =>
                              let files0 : Dict := [("id", fid)]
                              let files0 := if pyTruthyOptStr fu.title then
                                  dictSet files0 "title" (SVal.str (fu.title.getD ""))
                                else files0
                              let files_dict : Dict :=
                                [("files", SVal.arr [SVal.dict files0]), ("channel_id", cid)]
                              let files_dict := if pyTruthyOptStr fu.initial_comment then
                                  dictSet files_dict "initial_comment"
                                    (SVal.str (fu.initial_comment.getD ""))
                                else files_dict
                              let files_dict := if pyTruthyOptStr fu.thread_ts then
                                  dictSet files_dict "thread_ts" (SVal.str (fu.thread_ts.getD ""))
                                else files_dict
                              let files_data := jsonify (SVal.dict files_dict)
                              let headers3 := [("Authorization", "Bearer " ++ token),
                                               ("Content-Type", "application/json")]
                              let op3 := NetOp.post SLACK_COMPLETE_UPLOAD_EXTERNAL headers3 files_data
                              let trace := [op1, op2] ++ tc ++ [op3]
                              if w.upStatus3 ≠ 200 then
                                (trace, Except.error (Outcome.failJson
                                  ("Error during upload completion: " ++ w.upMsg3 ++ " (HTTP " ++
                                   toString w.upStatus3 ++ ")")))
                              else
                                match w.upBody3 with
                                | none => (trace, Except.error (Outcome.failJson
                                    ("The Slack API response is not valid JSON: " ++ w.upRaw3)))
                                | some (SVal.dict d3) =>
                                    if !pyTruthy (dictGetD d3 "ok" SVal.null) then
                                      (trace, Except.error (Outcome.failJson
                                        ("Failed to complete the upload: " ++ pyStr (SVal.dict d3))))
                                    else (trace, Except.ok (SVal.dict d3))
                                | some _ => (trace, Except.error (Outcome.failJson
                                    ("Error uploading file: " ++ pyErrStr PyErr.typeError)))
      | some _ => ([op1], Except.error (Outcome.failJson
          ("Error uploading file: " ++ pyErrStr PyErr.typeError)))

/-- The flat parameter record of one module invocation (after Ansible's
argument parsing; optional parameters the caller left unset are `none`). -/
structure Params where
  domain : Option String
  token : String
  msg : Option String
  channel : Option String
  thread_id : Option String
  username : Option String
  icon_url : Option String
  icon_emoji : Option String
  link_names : Option Int
  parse : Option String
  color : String
  attachments : Option (List Att)
  blocks : Option (List SVal)
  message_id : Option String
  prepend_hash : Option String
  upload_file : Option UploadFileOpts
deriving Repr, DecidableEq

/-- The keys compared by the edit-diff loop in `main` (line 705). -/
def editCompareKeys : List String :=
  ["icon_url", "icon_emoji", "link_names", "color", "attachments", "blocks"]

/-- `module.params.get(key)` as the Python value it denotes, for the keys the
edit-diff loop reads. -/
def paramVal (p : Params) : String → SVal
  | "icon_url" => optSVstr p.icon_url
  | "icon_emoji" => optSVstr p.icon_emoji
  | "link_names" => optSVint p.link_names
  | "color" => SVal.str p.color
  | "attachments" =>
      match p.attachments with
      | none => SVal.null
      | some l => SVal.arr (l.map SVal.dict)
  | "blocks" =>
      match p.blocks with
      | none => SVal.null
      | some l => SVal.arr l
  | _ => SVal.null

/-- The `for key in (...)` edit-diff loop: `changed` becomes true iff some
compared key of the fetched message differs from the requested value. -/
def editDiffChanged (m : Dict) (p : Params) : Bool :=
  editCompareKeys.any (fun k => !(svalBeq (dictGetD m k SVal.null) (paramVal p k)))

/-- The allowed named colors. -/
def color_choices : List String := ["normal", "good", "warning", "danger"]

/-- The color validation guard of `main` (line 695). -/
def colorBad (c : String) : Bool :=
  !(color_choices.contains c) && !(is_valid_hex_color c)

/-- The color validation failure message (`%r` of the choices list). -/
def colorErrMsg : String :=
  "Color value specified should be either one of [" ++ sq "normal" ++ ", " ++ sq "good" ++
  ", " ++ sq "warning" ++ ", " ++ sq "danger" ++
  "] or any valid hex value with length 3 or 6."

/-- The tail of `main` shared by the send and edit paths: build the payload,
send it through `do_notify_slack` and interpret the response (lines 716-732). -/
def sendFlow (p : Params) (w : World) (prepend_hash : String) (t0 : List NetOp)
    (changed : Bool) : List NetOp × Outcome :=
  match build_payload_for_slack p.msg p.channel p.thread_id p.username p.icon_url p.icon_emoji
      p.link_names p.parse p.color p.attachments p.blocks p.message_id prepend_hash with
  | Except.error e => (t0, Outcome.pyError e)
  | Except.ok bo =>
      let (t2, r2) := do_notify_slack w.notify p.domain p.token bo.payload
      match r2 with
      | Except.error (Outcome.failJson m) => (t0 ++ t2, Outcome.failJson m)
      | Except.error o => (t0 ++ t2, o)
      | Except.ok slack_response =>
          match slack_response with
          | SVal.dict sr =>
              if hasKey sr "ok" then
                if pyTruthy (dictGetD sr "ok" SVal.null) then
                  match dictGet sr "ts", dictGet sr "channel" with
                  | some tsv, some chv =>
                      (t0 ++ t2, Outcome.exitJson
                        [("changed", SVal.bool changed), ("ts", tsv), ("channel", chv),
                         ("api", SVal.dict sr),
                         ("payload", SVal.str (jsonify (SVal.dict bo.payload)))])
                  | none, _ => (t0 ++ t2, Outcome.pyError (PyErr.keyError "ts"))
                  | some _, none => (t0 ++ t2, Outcome.pyError (PyErr.keyError "channel"))
                else
                  match dictGet sr "error" with
                  | some _ => (t0 ++ t2, Outcome.failJson "Slack API error")
                  | none => (t0 ++ t2, Outcome.pyError (PyErr.keyError "error"))
              else (t0 ++ t2, Outcome.exitJson [("msg", SVal.str "OK")])
          | _ => (t0 ++ t2, Outcome.pyError PyErr.typeError)

/-- `main()` (lines 621-732) as a function from the parameters, the
check-mode flag and the response oracle to the network trace and the final
outcome.  The upload branch runs before every check-mode test, exactly as in
the source. -/
def mainRun (p : Params) (check_mode : Bool) (w : World) : List NetOp × Outcome :=
  match p.upload_file with
  | some fu =>
      let (t, r) := upload_file_to_slack w p.token p.channel fu
      match r with
      | Except.ok resp =>
          (t, Outcome.exitJson [("changed", SVal.bool true),
            ("msg", SVal.str "File uploaded successfully"), ("upload_response", resp)])
      | Except.error o => (t, o)
  | none =>
    let prepend_hash := p.prepend_hash.getD "auto"
    if colorBad p.color then ([], Outcome.failJson colorErrMsg)
    else
      match p.message_id with
      | some mid =>
          let (t1, r1) := get_slack_message w.histStatus w.histBody p.token p.channel mid
          match r1 with
          | Except.error o => (t1, o)
          | Except.ok (SVal.dict m) =>
              let changed := editDiffChanged m p
              if check_mode || !changed then
                match dictGet m "ts" with
                | none => (t1, Outcome.pyError (PyErr.keyError "ts"))
                | some tsv =>
                    match dictGet m "channel" with
                    | none => (t1, Outcome.pyError (PyErr.keyError "channel"))
                    | some chv =>
                        (t1, Outcome.exitJson
                          [("changed", SVal.bool changed), ("ts", tsv), ("channel", chv)])
              else sendFlow p w prepend_hash t1 changed
          | Except.ok _ => (t1, Outcome.pyError PyErr.typeError)
      | none =>
          if check_mode then ([], Outcome.exitJson [("changed", SVal.bool true)])
          else sendFlow p w prepend_hash [] true

/-! ## Concrete fixtures used by claim theorems, witnesses and counterexamples -/

/-- The message text of the spec's escaping example, `it's "ok"`. -/
def c1Text : String := String.mk ['i', 't', squote, 's', ' ', dquote, 'o', 'k', dquote]

/-- The escaped text the claim says results, `it\'s \"ok\"`. -/
def c1Claimed : String :=
  String.mk ['i', 't', '\\', squote, 's', ' ', '\\', dquote, 'o', 'k', '\\', dquote]

/-- A file-upload request (only `path` set). -/
def c2Upload : UploadFileOpts where
  path := "/tmp/f.txt"
  alt_text := none
  snippet_type := none
  initial_comment := none
  thread_ts := none
  title := none

/-- One `conversations.list` page naming the requested channel. -/
def c2Page : ListPage where
  status := 200
  infoMsg := ""
  body := some (SVal.dict [("ok", SVal.bool true),
    ("channels", SVal.arr [SVal.dict [("name", SVal.str "ansible"), ("id", SVal.str "C1")]])])
  raw := ""

/-- A response oracle in which every upload step succeeds. -/
def c2World : World where
  histStatus := 200
  histBody := SVal.null
  notify := { status := 200, infoMsg := "", body := SVal.null }
  fsExists := true
  fsSize := 3
  fileContent := some "abc"
  upStatus1 := 200
  upMsg1 := ""
  upBody1 := some (SVal.dict [("ok", SVal.bool true),
    ("upload_url", SVal.str "https://up.example/u1"), ("file_id", SVal.str "F1")])
  upRaw1 := ""
  upStatus2 := 200
  upMsg2 := ""
  listPages := [c2Page]
  upStatus3 := 200
  upMsg3 := ""
  upBody3 := some (SVal.dict [("ok", SVal.bool true)])
  upRaw3 := ""

/-- Module parameters carrying a file-upload request. -/
def c2Params : Params where
  domain := none
  token := "xoxb-tok"
  msg := none
  channel := some "ansible"
  thread_id := none
  username := some "Ansible"
  icon_url := some "https://docs.ansible.com/favicon.ico"
  icon_emoji := none
  link_names := some 1
  parse := none
  color := "normal"
  attachments := none
  blocks := none
  message_id := none
  prepend_hash := none
  upload_file := some c2Upload

/-- The JSON body of the upload-completion POST in the `c2World` run. -/
def c2CompleteBody : String :=
  jsonify (SVal.dict [("files", SVal.arr [SVal.dict [("id", SVal.str "F1")]]),
    ("channel_id", SVal.str "C1")])

/-- The build output for the all-unset call of `build_payload_for_slack`. -/
def c3Out : BuildOut := ⟨[("icon_url", SVal.null)], none, none⟩

/-- The fetched message of the C5 witness scenario. -/
def c5Msg : Dict :=
  [("ts", SVal.str "123.456"), ("channel", SVal.str "C0AA"), ("color", SVal.str "normal")]

/-- A history oracle returning exactly `c5Msg`. -/
def c5World : World where
  histStatus := 200
  histBody := SVal.dict [("ok", SVal.bool true), ("messages", SVal.arr [SVal.dict c5Msg])]
  notify := { status := 200, infoMsg := "", body := SVal.null }
  fsExists := false
  fsSize := 0
  fileContent := none
  upStatus1 := 0
  upMsg1 := ""
  upBody1 := none
  upRaw1 := ""
  upStatus2 := 0
  upMsg2 := ""
  listPages := []
  upStatus3 := 0
  upMsg3 := ""
  upBody3 := none
  upRaw3 := ""

/-- Edit-mode parameters whose requested values match `c5Msg`. -/
def c5Params : Params where
  domain := none
  token := "xoxb-tok"
  msg := some "new text that is not compared"
  channel := some "C0AA"
  thread_id := none
  username := none
  icon_url := none
  icon_emoji := none
  link_names := none
  parse := none
  color := "normal"
  attachments := none
  blocks := none
  message_id := some "123.456"
  prepend_hash := some "never"
  upload_file := none

/-- The build output of the C6 witness call (`text="x"`, `color="#ff00aa"`). -/
def c6Out : BuildOut :=
  ⟨[("attachments", SVal.arr [synthAttachment "x" "#ff00aa"]), ("icon_url", SVal.null)],
   none, none⟩

/-- An attachment carrying only a `text` field. -/
def c7Att : Att := [("text", SVal.str "hello")]

/-- The build output when `c7Att` is the only supplied attachment. -/
def c7Out : BuildOut :=
  ⟨[("icon_url", SVal.null),
    ("attachments", SVal.arr [SVal.dict [("text", SVal.str "hello"),
      ("fallback", SVal.str "hello")]])],
   some [[("text", SVal.str "hello"), ("fallback", SVal.str "hello")]], none⟩

/-- An attachment carrying only a `text` field (C10 witness). -/
def c10Att : Att := [("text", SVal.str "zz"), ("color", SVal.str "good")]

/-- The build output when `c10Att` is the only supplied attachment and one
block is passed. -/
def c10Out : BuildOut :=
  ⟨[("icon_url", SVal.null),
    ("attachments", SVal.arr [SVal.dict [("text", SVal.str "zz"),
      ("color", SVal.str "good"), ("fallback", SVal.str "zz")]]),
    ("blocks", SVal.arr [SVal.dict [("type", SVal.str "divider")]])],
   some [[("text", SVal.str "zz"), ("color", SVal.str "good"), ("fallback", SVal.str "zz")]],
   some [SVal.dict [("type", SVal.str "divider")]]⟩

/-! ## Helper lemmas -/

theorem dictGet_dictSet_eq (d : Dict) (k : String) (v : SVal) :
    dictGet (dictSet d k v) k = some v := by
  induction d with
  | nil => simp [dictSet, dictGet]
  | cons kv rest ih =>
    obtain ⟨k0, v0⟩ := kv
    by_cases h : k0 = k <;> simp [dictSet, dictGet, h, ih]

theorem dictGet_dictSet_ne (d : Dict) (k k' : String) (v : SVal) (h : k' ≠ k) :
    dictGet (dictSet d k v) k' = dictGet d k' := by
  induction d with
  | nil => simp [dictSet, dictGet, Ne.symm h]
  | cons kv rest ih =>
    obtain ⟨k0, v0⟩ := kv
    by_cases h0 : k0 = k
    · subst h0
      simp [dictSet, dictGet, Ne.symm h]
    · simp [dictSet, dictGet, h0, ih]

theorem dictSet_self (d : Dict) (k : String) (v : SVal) (h : dictGet d k = some v) :
    dictSet d k v = d := by
  induction d with
  | nil => simp [dictGet] at h
  | cons kv rest ih =>
    obtain ⟨k0, v0⟩ := kv
    by_cases h0 : k0 = k
    · subst h0
      simp [dictGet] at h
      simp [dictSet, h]
    · simp [dictGet, h0] at h
      simp [dictSet, h0, ih h]

theorem mem_dictSet (d : Dict) (k : String) (v : SVal) (kv : String × SVal)
    (h : kv ∈ dictSet d k v) : kv = (k, v) ∨ kv ∈ d := by
  induction d with
  | nil =>
    simp [dictSet] at h
    exact Or.inl h
  | cons kv0 rest ih =>
    obtain ⟨k0, v0⟩ := kv0
    by_cases h0 : k0 = k
    · subst h0
      simp [dictSet] at h
      rcases h with h | h
      · exact Or.inl (by simp [h])
      · exact Or.inr (List.mem_cons_of_mem _ h)
    · simp [dictSet, h0] at h
      rcases h with h | h
      · exact Or.inr (by simp [h])
      · rcases ih h with h' | h'
        · exact Or.inl h'
        · exact Or.inr (List.mem_cons_of_mem _ h')

theorem escTableGet_eq_singleton (c : Char) : escTableGet c = String.singleton c := by
  by_cases h1 : c = dquote
  · subst h1
    decide
  · by_cases h2 : c = squote
    · subst h2
      decide
    · have hb1 : (c == dquote) = false := beq_eq_false_iff_ne.mpr h1
      have hb2 : (c == squote) = false := beq_eq_false_iff_ne.mpr h2
      simp [escTableGet, escape_table, List.lookup, hb1, hb2]

theorem strJoin_singletons (l : List Char) :
    strJoin (l.map (fun c => String.singleton c)) = String.mk l := by
  induction l with
  | nil => rfl
  | cons c rest ih =>
    show String.singleton c ++ strJoin (rest.map (fun c => String.singleton c)) = String.mk (c :: rest)
    rw [ih]
    rfl

/-- The escape table maps every quote to itself, so `escape_quotes` is the
identity function: no backslashes are ever introduced. -/
theorem escape_quotes_id (s : String) : escape_quotes s = s := by
  have h : (s.toList.map escTableGet) = s.toList.map (fun c => String.singleton c) := by
    apply List.map_congr_left
    intro c _
    exact escTableGet_eq_singleton c
  rw [escape_quotes, h, strJoin_singletons]
  cases s
  rfl

theorem escStep_ok (a : Att) (k : String) (a' : Att) (h : escStep a k = Except.ok a') :
    a' = a := by
  unfold escStep at h
  cases hg : dictGet a k with
  | none =>
    rw [hg] at h
    exact (Except.ok.inj h).symm
  | some v =>
    rw [hg] at h
    cases v <;> simp [escape_quotes_id] at h
    rename_i s
    rw [← h]
    exact dictSet_self a k (SVal.str s) hg

theorem escLoop_ok (ks : List String) (a a' : Att) (h : escLoop a ks = Except.ok a') :
    a' = a := by
  induction ks generalizing a with
  | nil =>
    unfold escLoop at h
    exact (Except.ok.inj h).symm
  | cons k rest ih =>
    unfold escLoop at h
    cases hs : escStep a k with
    | error e =>
      rw [hs] at h
      exact absurd h (by simp)
    | ok a1 =>
      rw [hs] at h
      rw [ih a1 h, escStep_ok a k a1 hs]

theorem escStep_ok_of_wt (a : Att) (k : String) (h : wtAt a k = true) :
    escStep a k = Except.ok a := by
  unfold wtAt at h
  unfold escStep
  cases hg : dictGet a k with
  | none => rfl
  | some v =>
    rw [hg] at h
    cases v <;> simp at h
    rename_i s
    simp [escape_quotes_id, dictSet_self a k (SVal.str s) hg]

theorem escLoop_of_wt (a : Att) (h : attWellTyped a = true) :
    escLoop a attachment_keys_to_escape = Except.ok a := by
  unfold attWellTyped attachment_keys_to_escape at h
  simp [List.all] at h
  obtain ⟨h1, h2, h3, h4, h5⟩ := h
  simp [attachment_keys_to_escape, escLoop, escStep_ok_of_wt a _ h1,
        escStep_ok_of_wt a _ h2, escStep_ok_of_wt a _ h3,
        escStep_ok_of_wt a _ h4, escStep_ok_of_wt a _ h5]

/-- Characterisation of a successful run of the per-attachment body:
either the attachment already had a `fallback` key and is returned
unchanged, or `fallback` was absent, `text` was present, and the result is
the attachment with `fallback` bound to the `text` value. -/
theorem processAttachment_ok_cases (a a' : Att) (h : processAttachment a = Except.ok a') :
    (a' = a ∧ hasKey a "fallback" = true) ∨
    (hasKey a "fallback" = false ∧
      ∃ v, dictGet a "text" = some v ∧ a' = dictSet a "fallback" v) := by
  unfold processAttachment at h
  cases hl : escLoop a attachment_keys_to_escape with
  | error e =>
    rw [hl] at h
    simp at h
  | ok a1 =>
    have ha1 : a1 = a := escLoop_ok _ a a1 hl
    rw [hl, ha1] at h
    by_cases hf : hasKey a "fallback" = true
    · simp [hf] at h
      exact Or.inl ⟨h.symm, hf⟩
    · have hf' : hasKey a "fallback" = false := by simpa using hf
      simp [hf'] at h
      cases ht : dictGet a "text" with
      | none =>
        rw [ht] at h
        simp at h
      | some v =>
        rw [ht] at h
        simp at h
        exact Or.inr ⟨hf', v, rfl, h.symm⟩

theorem processAttachment_keyError (a : Att) (hwt : attWellTyped a = true)
    (hf : hasKey a "fallback" = false) (ht : hasKey a "text" = false) :
    processAttachment a = Except.error (PyErr.keyError "text") := by
  have hg : dictGet a "text" = none := by
    unfold hasKey at ht
    cases hgg : dictGet a "text" with
    | none => rfl
    | some v =>
      rw [hgg] at ht
      simp at ht
  unfold processAttachment
  rw [escLoop_of_wt a hwt]
  simp [hf, hg]

theorem processAttachment_ok_of_wt_fallback (a : Att) (hwt : attWellTyped a = true)
    (hf : hasKey a "fallback" = true) : processAttachment a = Except.ok a := by
  unfold processAttachment
  rw [escLoop_of_wt a hwt]
  simp [hf]

theorem processAttachment_ok_of_wt_text (a : Att) (hwt : attWellTyped a = true)
    (hf : hasKey a "fallback" = false) (v : SVal) (ht : dictGet a "text" = some v) :
    processAttachment a = Except.ok (dictSet a "fallback" v) := by
  unfold processAttachment
  rw [escLoop_of_wt a hwt]
  simp [hf, ht]

theorem processAll_forall2 (l l' : List Att) (h : processAll l = Except.ok l') :
    List.Forall₂ (fun a a' => processAttachment a = Except.ok a') l l' := by
  induction l generalizing l' with
  | nil =>
    unfold processAll at h
    rw [← Except.ok.inj h]
    exact List.Forall₂.nil
  | cons a rest ih =>
    unfold processAll at h
    cases hp : processAttachment a with
    | error e =>
      rw [hp] at h
      exact absurd h (by simp)
    | ok a1 =>
      rw [hp] at h
      cases hr : processAll rest with
      | error e =>
        rw [hr] at h
        exact absurd h (by simp)
      | ok l1 =>
        rw [hr] at h
        rw [← Except.ok.inj h]
        exact List.Forall₂.cons hp (ih l1 hr)

theorem processAll_keyError (l : List Att) (hwt : ∀ a ∈ l, attWellTyped a = true)
    (hx : ∃ a ∈ l, hasKey a "fallback" = false ∧ hasKey a "text" = false) :
    processAll l = Except.error (PyErr.keyError "text") := by
  induction l with
  | nil => simp at hx
  | cons a rest ih =>
    have hwa : attWellTyped a = true := hwt a (List.mem_cons_self a rest)
    by_cases hme : hasKey a "fallback" = false ∧ hasKey a "text" = false
    · unfold processAll
      rw [processAttachment_keyError a hwa hme.1 hme.2]
    · have hxr : ∃ b ∈ rest, hasKey b "fallback" = false ∧ hasKey b "text" = false := by
        obtain ⟨b, hbmem, hb⟩ := hx
        rcases List.mem_cons.mp hbmem with hb1 | hb1
        · exact absurd (hb1 ▸ hb) hme
        · exact ⟨b, hb1, hb⟩
      have hrest := ih (fun b hb => hwt b (List.mem_cons_of_mem _ hb)) hxr
      unfold processAll
      by_cases hf : hasKey a "fallback" = true
      · rw [processAttachment_ok_of_wt_fallback a hwa hf, hrest]
      · have hf' : hasKey a "fallback" = false := by simpa using hf
        have ht' : hasKey a "text" = true := by
          by_contra hc
          exact hme ⟨hf', by simpa using hc⟩
        unfold hasKey at ht'
        cases hg : dictGet a "text" with
        | none =>
          rw [hg] at ht'
          simp at ht'
        | some v =>
          rw [processAttachment_ok_of_wt_text a hwa hf' v hg, hrest]

theorem dictAppendArr_get_arr (d : Dict) (k : String) (v : SVal) (xs : List SVal)
    (h : dictGet d k = some (SVal.arr xs)) :
    dictGet (dictAppendArr d k v) k = some (SVal.arr (xs ++ [v])) := by
  unfold dictAppendArr
  rw [h, dictGet_dictSet_eq]

theorem dictAppendArr_get_ne (d : Dict) (k k' : String) (v : SVal) (h : k' ≠ k) :
    dictGet (dictAppendArr d k v) k' = dictGet d k' := by
  unfold dictAppendArr
  cases dictGet d k with
  | none => rfl
  | some w =>
    cases w with
    | arr xs => exact dictGet_dictSet_ne d k k' _ h
    | null => rfl
    | bool b => rfl
    | num n => rfl
    | str s => rfl
    | dict kvs => rfl

theorem foldAppend_get_attachments (l : List Att) (d : Dict) (xs : List SVal)
    (h : dictGet d "attachments" = some (SVal.arr xs)) :
    dictGet (foldAppend d l) "attachments" = some (SVal.arr (xs ++ l.map SVal.dict)) := by
  induction l generalizing d xs with
  | nil =>
    unfold foldAppend
    simpa using h
  | cons a rest ih =>
    unfold foldAppend
    have h1 := dictAppendArr_get_arr d "attachments" (SVal.dict a) xs h
    have h2 := ih (dictAppendArr d "attachments" (SVal.dict a)) (xs ++ [SVal.dict a]) h1
    rw [h2]
    simp

theorem foldAppend_get_ne (l : List Att) (d : Dict) (k : String) (h : k ≠ "attachments") :
    dictGet (foldAppend d l) k = dictGet d k := by
  induction l generalizing d with
  | nil => rfl
  | cons a rest ih =>
    unfold foldAppend
    rw [ih, dictAppendArr_get_ne d "attachments" k _ h]

theorem mem_dictAppendArr (d : Dict) (k : String) (v : SVal) (kv : String × SVal)
    (h : kv ∈ dictAppendArr d k v) : kv ∈ d ∨ ∃ ys, kv = (k, SVal.arr ys) := by
  unfold dictAppendArr at h
  cases hg : dictGet d k with
  | none =>
    rw [hg] at h
    exact Or.inl h
  | some w =>
    rw [hg] at h
    cases w with
    | arr xs =>
      rcases mem_dictSet _ _ _ _ h with h' | h'
      · exact Or.inr ⟨xs ++ [v], h'⟩
      · exact Or.inl h'
    | null => exact Or.inl h
    | bool b => exact Or.inl h
    | num n => exact Or.inl h
    | str s => exact Or.inl h
    | dict kvs => exact Or.inl h

theorem mem_foldAppend (l : List Att) (d : Dict) (kv : String × SVal)
    (h : kv ∈ foldAppend d l) : kv ∈ d ∨ ∃ ys, kv = ("attachments", SVal.arr ys) := by
  induction l generalizing d with
  | nil => exact Or.inl h
  | cons a rest ih =>
    unfold foldAppend at h
    rcases ih _ h with h' | h'
    · exact mem_dictAppendArr _ _ _ _ h'
    · exact Or.inr h'

theorem optSetStr_get_ne (d : Dict) (k k' : String) (v : Option String) (h : k' ≠ k) :
    dictGet (optSetStr d k v) k' = dictGet d k' := by
  unfold optSetStr
  cases v with
  | none => rfl
  | some s => exact dictGet_dictSet_ne d k k' _ h

theorem optSetInt_get_ne (d : Dict) (k k' : String) (v : Option Int) (h : k' ≠ k) :
    dictGet (optSetInt d k v) k' = dictGet d k' := by
  unfold optSetInt
  cases v with
  | none => rfl
  | some n => exact dictGet_dictSet_ne d k k' _ h

theorem channelStep_get_ne (d : Dict) (ch : Option String) (ph k : String)
    (h : k ≠ "channel") : dictGet (channelStep d ch ph) k = dictGet d k := by
  cases ch with
  | none => rfl
  | some c =>
    simp only [channelStep]
    split_ifs <;> first
      | rfl
      | exact dictGet_dictSet_ne d "channel" k _ h

theorem iconStep_get_ne (d : Dict) (iu ie : Option String) (k : String)
    (h1 : k ≠ "icon_emoji") (h2 : k ≠ "icon_url") :
    dictGet (iconStep d iu ie) k = dictGet d k := by
  unfold iconStep
  cases ie with
  | none => exact dictGet_dictSet_ne d "icon_url" k _ h2
  | some e => exact dictGet_dictSet_ne d "icon_emoji" k _ h1

theorem midSection_get_ne (d : Dict) (ch th us iu ie : Option String)
    (ln : Option Int) (pr mid : Option String) (ph k : String)
    (h1 : k ≠ "channel") (h2 : k ≠ "thread_ts") (h3 : k ≠ "username")
    (h4 : k ≠ "icon_emoji") (h5 : k ≠ "icon_url") (h6 : k ≠ "link_names")
    (h7 : k ≠ "parse") (h8 : k ≠ "ts") :
    dictGet (midSection d ch th us iu ie ln pr mid ph) k = dictGet d k := by
  unfold midSection
  rw [optSetStr_get_ne _ _ _ _ h8, optSetStr_get_ne _ _ _ _ h7,
      optSetInt_get_ne _ _ _ _ h6, iconStep_get_ne _ _ _ _ h4 h5,
      optSetStr_get_ne _ _ _ _ h3, optSetStr_get_ne _ _ _ _ h2,
      channelStep_get_ne _ _ _ _ h1]

theorem mem_optSetStr (d : Dict) (k : String) (v : Option String) (kv : String × SVal)
    (h : kv ∈ optSetStr d k v) : kv ∈ d ∨ ∃ s, v = some s ∧ kv = (k, SVal.str s) := by
  unfold optSetStr at h
  cases v with
  | none => exact Or.inl h
  | some s =>
    rcases mem_dictSet _ _ _ _ h with h' | h'
    · exact Or.inr ⟨s, rfl, h'⟩
    · exact Or.inl h'

theorem mem_optSetInt (d : Dict) (k : String) (v : Option Int) (kv : String × SVal)
    (h : kv ∈ optSetInt d k v) : kv ∈ d ∨ ∃ n, v = some n ∧ kv = (k, SVal.num n) := by
  unfold optSetInt at h
  cases v with
  | none => exact Or.inl h
  | some n =>
    rcases mem_dictSet _ _ _ _ h with h' | h'
    · exact Or.inr ⟨n, rfl, h'⟩
    · exact Or.inl h'

theorem mem_channelStep (d : Dict) (ch : Option String) (ph : String) (kv : String × SVal)
    (h : kv ∈ channelStep d ch ph) : kv ∈ d ∨ ∃ s, kv = ("channel", SVal.str s) := by
  cases ch with
  | none => exact Or.inl h
  | some c =>
    simp only [channelStep] at h
    split_ifs at h <;> first
      | exact Or.inl h
      | exact Or.elim (mem_dictSet _ _ _ _ h) (fun h' => Or.inr ⟨_, h'⟩) (fun h' => Or.inl h')

theorem mem_iconStep (d : Dict) (iu ie : Option String) (kv : String × SVal)
    (h : kv ∈ iconStep d iu ie) :
    kv ∈ d ∨ (∃ e, ie = some e ∧ kv = ("icon_emoji", SVal.str e)) ∨
      (ie = none ∧ kv = ("icon_url", optSVstr iu)) := by
  unfold iconStep at h
  cases ie with
  | none =>
    rcases mem_dictSet _ _ _ _ h with h' | h'
    · exact Or.inr (Or.inr ⟨rfl, h'⟩)
    · exact Or.inl h'
  | some e =>
    rcases mem_dictSet _ _ _ _ h with h' | h'
    · exact Or.inr (Or.inl ⟨e, rfl, h'⟩)
    · exact Or.inl h'

/-- Every binding the mid-section inserts is non-null, except the `icon_url`
binding inserted when `icon_emoji` is unset, which is null exactly when
`icon_url` is also unset. -/
theorem mem_midSection_null (d : Dict) (ch th us iu ie : Option String)
    (ln : Option Int) (pr mid : Option String) (ph : String) (kv : String × SVal)
    (hm : kv ∈ midSection d ch th us iu ie ln pr mid ph) (hnull : kv.2 = SVal.null) :
    kv ∈ d ∨ (kv.1 = "icon_url" ∧ ie = none ∧ iu = none) := by
  unfold midSection at hm
  rcases mem_optSetStr _ _ _ _ hm with hm | ⟨s, hs, hkv⟩
  · rcases mem_optSetStr _ _ _ _ hm with hm | ⟨s, hs, hkv⟩
    · rcases mem_optSetInt _ _ _ _ hm with hm | ⟨n, hn, hkv⟩
      · rcases mem_iconStep _ _ _ _ hm with hm | ⟨e, hie, hkv⟩ | ⟨hie, hkv⟩
        · rcases mem_optSetStr _ _ _ _ hm with hm | ⟨s, hs, hkv⟩
          · rcases mem_optSetStr _ _ _ _ hm with hm | ⟨s, hs, hkv⟩
            · rcases mem_channelStep _ _ _ _ hm with hm | ⟨s, hkv⟩
              · exact Or.inl hm
              · rw [hkv] at hnull
                simp at hnull
            · rw [hkv] at hnull
              simp at hnull
          · rw [hkv] at hnull
            simp at hnull
        · rw [hkv] at hnull
          simp at hnull
        · cases hiu : iu with
          | some u =>
            rw [hiu] at hkv
            rw [hkv] at hnull
            simp [optSVstr] at hnull
          | none =>
            rw [hiu] at hkv
            refine Or.inr ⟨?_, hie, rfl⟩
            rw [hkv]
      · rw [hkv] at hnull
        simp at hnull
    · rw [hkv] at hnull
      simp at hnull
  · rw [hkv] at hnull
    simp at hnull

theorem attachStep_some (d : Dict) (l : List Att) (l1 : List Att)
    (hp : processAll l = Except.ok l1) :
    attachStep d (some l) = Except.ok
      (foldAppend (if hasKey d "attachments" then d else dictSet d "attachments" (SVal.arr []))
        l1, some l1) := by
  simp [attachStep, hp]

theorem attachStep_some_error (d : Dict) (l : List Att) (e : PyErr)
    (hp : processAll l = Except.error e) : attachStep d (some l) = Except.error e := by
  simp [attachStep, hp]

theorem attachStep_ok_cases (d : Dict) (atts : Option (List Att)) (d1 : Dict)
    (x : Option (List Att)) (h : attachStep d atts = Except.ok (d1, x)) :
    (atts = none ∧ d1 = d ∧ x = none) ∨
    (∃ l l1, atts = some l ∧ processAll l = Except.ok l1 ∧ x = some l1 ∧
      d1 = foldAppend
        (if hasKey d "attachments" then d else dictSet d "attachments" (SVal.arr [])) l1) := by
  cases atts with
  | none =>
    simp only [attachStep] at h
    have h' := Except.ok.inj h
    injection h' with h1 h2
    exact Or.inl ⟨rfl, h1.symm, h2.symm⟩
  | some l =>
    simp only [attachStep] at h
    cases hp : processAll l with
    | error e =>
      rw [hp] at h
      simp at h
    | ok l1 =>
      rw [hp] at h
      simp only [Except.ok.injEq, Prod.mk.injEq] at h
      exact Or.inr ⟨l, l1, rfl, hp, h.2.symm, h.1.symm⟩

theorem blocksStep_fst_get_ne (d : Dict) (blocks : Option (List SVal)) (k : String)
    (hk : k ≠ "blocks") : dictGet (blocksStep d blocks).1 k = dictGet d k := by
  cases blocks with
  | none => rfl
  | some bs => exact dictGet_dictSet_ne d "blocks" k _ hk

theorem blocksStep_snd (d : Dict) (blocks : Option (List SVal)) :
    (blocksStep d blocks).2 = blocks := by
  cases blocks <;> rfl

theorem mem_blocksStep (d : Dict) (blocks : Option (List SVal)) (kv : String × SVal)
    (h : kv ∈ (blocksStep d blocks).1) : kv ∈ d ∨ ∃ ys, kv = ("blocks", SVal.arr ys) := by
  cases blocks with
  | none => exact Or.inl h
  | some bs =>
    rcases mem_dictSet _ _ _ _ h with h' | h'
    · exact Or.inr ⟨_, h'⟩
    · exact Or.inl h'

/-- Decomposition of a successful `build_payload_for_slack` run into its
attachment section and blocks section. -/
theorem build_ok_parts (text channel thread_id username icon_url icon_emoji : Option String)
    (link_names : Option Int) (parse : Option String) (color : String)
    (attachments : Option (List Att)) (blocks : Option (List SVal))
    (message_id : Option String) (prepend_hash : String) (out : BuildOut)
    (h : build_payload_for_slack text channel thread_id username icon_url icon_emoji
      link_names parse color attachments blocks message_id prepend_hash = Except.ok out) :
    ∃ d1, attachStep (midSection (initialPayload text color) channel thread_id username
        icon_url icon_emoji link_names parse message_id prepend_hash) attachments =
        Except.ok (d1, out.attachmentsAfter) ∧
      out.payload = (blocksStep d1 blocks).1 ∧ out.blocksAfter = (blocksStep d1 blocks).2 := by
  unfold build_payload_for_slack at h
  cases ha : attachStep (midSection (initialPayload text color) channel thread_id username
      icon_url icon_emoji link_names parse message_id prepend_hash) attachments with
  | error e =>
    rw [ha] at h
    simp at h
  | ok pr1 =>
    obtain ⟨d1, aa⟩ := pr1
    rw [ha] at h
    simp only [] at h
    cases hb : blocksStep d1 blocks with
    | mk d2 ba =>
      rw [hb] at h
      simp only [Except.ok.injEq] at h
      subst h
      refine ⟨d1, rfl, ?_, ?_⟩
      · rw [hb]
      · rw [hb]

theorem build_error_of_processAll_error (text channel thread_id username icon_url
    icon_emoji : Option String) (link_names : Option Int) (parse : Option String)
    (color : String) (atts : List Att) (blocks : Option (List SVal))
    (message_id : Option String) (prepend_hash : String) (e : PyErr)
    (hp : processAll atts = Except.error e) :
    build_payload_for_slack text channel thread_id username icon_url icon_emoji
      link_names parse color (some atts) blocks message_id prepend_hash =
      Except.error e := by
  unfold build_payload_for_slack
  rw [attachStep_some_error _ _ _ hp]

/-- `initialPayload` never binds a key to null. -/
theorem mem_initialPayload_null (text : Option String) (color : String)
    (kv : String × SVal) (h : kv ∈ initialPayload text color) : kv.2 ≠ SVal.null := by
  cases text with
  | none => simp [initialPayload] at h
  | some t =>
    simp only [initialPayload] at h
    by_cases hc : color = "normal"
    · rw [if_pos hc] at h
      simp at h
      rw [h]
      simp
    · rw [if_neg hc] at h
      simp at h
      rw [h]
      simp

theorem initialPayload_get_text_normal (t : String) :
    dictGet (initialPayload (some t) "normal") "text" =
      some (SVal.str (escape_quotes t)) := by
  simp [initialPayload, dictGet]

theorem initialPayload_get_text_color (t color : String) (hc : color ≠ "normal") :
    dictGet (initialPayload (some t) color) "text" = none := by
  simp [initialPayload, hc, dictGet]

theorem initialPayload_get_attachments_normal (t : String) :
    dictGet (initialPayload (some t) "normal") "attachments" = none := by
  simp [initialPayload, dictGet]

theorem initialPayload_get_attachments_color (t color : String) (hc : color ≠ "normal") :
    dictGet (initialPayload (some t) color) "attachments" =
      some (SVal.arr [synthAttachment t color]) := by
  simp [initialPayload, hc, dictGet]

theorem midSection_get_text (d : Dict) (ch th us iu ie : Option String)
    (ln : Option Int) (pr mid : Option String) (ph : String) :
    dictGet (midSection d ch th us iu ie ln pr mid ph) "text" = dictGet d "text" :=
  midSection_get_ne d ch th us iu ie ln pr mid ph "text"
    (by decide) (by decide) (by decide) (by decide) (by decide) (by decide)
    (by decide) (by decide)

theorem midSection_get_attachments (d : Dict) (ch th us iu ie : Option String)
    (ln : Option Int) (pr mid : Option String) (ph : String) :
    dictGet (midSection d ch th us iu ie ln pr mid ph) "attachments" =
      dictGet d "attachments" :=
  midSection_get_ne d ch th us iu ie ln pr mid ph "attachments"
    (by decide) (by decide) (by decide) (by decide) (by decide) (by decide)
    (by decide) (by decide)

theorem midSection_get_icon_url_none (d : Dict) (ch th us iu : Option String)
    (ln : Option Int) (pr mid : Option String) (ph : String) :
    dictGet (midSection d ch th us iu none ln pr mid ph) "icon_url" =
      some (optSVstr iu) := by
  unfold midSection
  rw [optSetStr_get_ne _ _ _ _ (by decide), optSetStr_get_ne _ _ _ _ (by decide),
      optSetInt_get_ne _ _ _ _ (by decide)]
  unfold iconStep
  exact dictGet_dictSet_eq _ _ _

mutual

theorem svalBeq_refl : ∀ a : SVal, svalBeq a a = true
  | SVal.null => rfl
  | SVal.bool x => by simp [svalBeq]
  | SVal.num x => by simp [svalBeq]
  | SVal.str x => by simp [svalBeq]
  | SVal.arr xs => by simp [svalBeq, svalBeqList_refl xs]
  | SVal.dict kvs => by simp [svalBeq, svalBeqDict_refl kvs]

theorem svalBeqList_refl : ∀ xs : List SVal, svalBeqList xs xs = true
  | [] => rfl
  | x :: xs => by simp [svalBeqList, svalBeq_refl x, svalBeqList_refl xs]

theorem svalBeqDict_refl : ∀ xs : List (String × SVal), svalBeqDict xs xs = true
  | [] => rfl
  | (k, v) :: xs => by simp [svalBeqDict, svalBeq_refl v, svalBeqDict_refl xs]

end

theorem classifyRoute_slashes (domain : Option String) (token : String) (payload : Dict)
    (h : countSlash token ≥ 2) :
    classifyRoute domain token payload = Except.ok (SLACK_INCOMING_WEBHOOK token, false) := by
  simp [classifyRoute, h]

theorem classifyRoute_xox (domain : Option String) (token : String) (payload : Dict)
    (h1 : ¬ countSlash token ≥ 2) (h2 : xoxMatch token = true) :
    classifyRoute domain token payload = Except.ok
      ((if hasKey payload "ts" then SLACK_UPDATEMESSAGE_WEBAPI else SLACK_POSTMESSAGE_WEBAPI),
       true) := by
  simp [classifyRoute, h1, h2]

theorem classifyRoute_legacy_fail (domain : Option String) (token : String) (payload : Dict)
    (h1 : ¬ countSlash token ≥ 2) (h2 : xoxMatch token = false)
    (h3 : pyTruthyOptStr domain = false) :
    classifyRoute domain token payload = Except.error (Outcome.failJson legacyTokenErrMsg) := by
  simp [classifyRoute, h1, h2, h3]

theorem classifyRoute_legacy (domain : Option String) (token : String) (payload : Dict)
    (h1 : ¬ countSlash token ≥ 2) (h2 : xoxMatch token = false)
    (h3 : pyTruthyOptStr domain = true) :
    classifyRoute domain token payload =
      Except.ok (OLD_SLACK_INCOMING_WEBHOOK (domain.getD "") token, false) := by
  simp [classifyRoute, h1, h2, h3]

/-- Whatever the classification, a classified notifier run issues exactly one
POST, to the selected URI, with the selected headers. -/
theorem do_notify_trace (nw : NotifyWorld) (domain : Option String) (token : String)
    (payload : Dict) (uri : String) (w : Bool)
    (hc : classifyRoute domain token payload = Except.ok (uri, w)) :
    (do_notify_slack nw domain token payload).1 =
      [NetOp.post uri (notifyHeaders w token) (jsonify (SVal.dict payload))] := by
  unfold do_notify_slack
  rw [hc]
  cases w <;> by_cases hs : nw.status ≠ 200 <;> simp [hs]

theorem do_notify_fail_result (nw : NotifyWorld) (domain : Option String) (token : String)
    (payload : Dict) (uri : String) (w : Bool)
    (hc : classifyRoute domain token payload = Except.ok (uri, w)) (hs : nw.status ≠ 200) :
    (do_notify_slack nw domain token payload).2 =
      Except.error (Outcome.failJson
        (" failed to send " ++ jsonify (SVal.dict payload) ++ " to " ++
         (if w then uri else SLACK_INCOMING_WEBHOOK "[obscured]") ++ ": " ++ nw.infoMsg)) := by
  unfold do_notify_slack
  rw [hc]
  cases w <;> simp [hs]

theorem get_slack_message_ok (histStatus : Nat) (histBody : SVal) (token : String)
    (channel : Option String) (ts : String) (d : Dict) (m : Dict)
    (hs : histStatus = 200) (hb : histBody = SVal.dict d)
    (hok2 : ¬ dictGet d "ok" = some (SVal.bool false))
    (hm : dictGet d "messages" = some (SVal.arr [SVal.dict m])) :
    get_slack_message histStatus histBody token channel ts =
      ([NetOp.get SLACK_CONVERSATIONS_HISTORY_WEBAPI
          [("channel", qstr channel), ("ts", ts), ("limit", "1"), ("inclusive", "true")]
          [("Content-Type", "application/json; charset=UTF-8"),
           ("Accept", "application/json"), ("Authorization", "Bearer " ++ token)]],
       Except.ok (SVal.dict m)) := by
  subst hs
  subst hb
  unfold get_slack_message
  simp [hok2, hm]

theorem editDiffChanged_false_of (m : Dict) (p : Params)
    (heq : ∀ k ∈ editCompareKeys, dictGetD m k SVal.null = paramVal p k) :
    editDiffChanged m p = false := by
  unfold editDiffChanged
  rw [List.any_eq_false]
  intro k hk
  rw [heq k hk]
  simp [svalBeq_refl]

/-- The per-attachment consequences of a successful processing run used by
the fallback-defaulting claim. -/
theorem processAttachment_field_facts (a a' : Att)
    (h : processAttachment a = Except.ok a') :
    (∀ f, dictGet a "fallback" = some (SVal.str f) →
      dictGet a' "fallback" = some (SVal.str (escape_quotes f))) ∧
    (hasKey a "fallback" = false → ∀ t, dictGet a "text" = some (SVal.str t) →
      dictGet a' "fallback" = some (SVal.str (escape_quotes t))) ∧
    (∀ k, k ∉ attachment_keys_to_escape → dictGet a' k = dictGet a k) := by
  rcases processAttachment_ok_cases a a' h with ⟨heq, hf⟩ | ⟨hf, v, ht, heq⟩
  · subst heq
    refine ⟨?_, ?_, ?_⟩
    · intro f hff
      rw [hff, escape_quotes_id]
    · intro hff
      rw [hff] at hf
      simp at hf
    · intro k _
      rfl
  · refine ⟨?_, ?_, ?_⟩
    · intro f hff
      have : hasKey a "fallback" = true := by simp [hasKey, hff]
      rw [this] at hf
      simp at hf
    · intro _ t ht2
      have hv : v = SVal.str t := by
        have := ht.symm.trans ht2
        exact Option.some.inj this
      rw [heq, dictGet_dictSet_eq, hv, escape_quotes_id]
    · intro k hk
      have hkf : k ≠ "fallback" := by
        intro he
        exact hk (he ▸ (by decide))
      rw [heq, dictGet_dictSet_ne _ _ _ _ hkf]

theorem initialPayload_get_attachments_cases (text : Option String) (color : String) :
    dictGet (initialPayload text color) "attachments" = none ∨
    ∃ xs, dictGet (initialPayload text color) "attachments" = some (SVal.arr xs) := by
  cases text with
  | none => exact Or.inl rfl
  | some t =>
    by_cases hc : color = "normal"
    · subst hc
      exact Or.inl (initialPayload_get_attachments_normal t)
    · exact Or.inr ⟨[synthAttachment t color], initialPayload_get_attachments_color t color hc⟩

/-! ## Claim theorems -/

/-- C1 (code bug): the spec and the function's own docstring say quotes are
backslash-escaped, but the escape table maps each quote character to itself
(in the Python literals `"\""` and `"\'"` the backslash only escapes the
quote), so `escape_quotes` is the identity.  Evaluating the spec's example
`build_payload(text="it's \"ok\"", color="normal")`: the top-level `text`
field holds the input unchanged, not the claimed `it\'s \"ok\"`. -/
theorem c1_escape_table_is_noop :
    escape_quotes c1Text = c1Text ∧
    c1Text ≠ c1Claimed ∧
    build_payload_for_slack (some c1Text) none none none none none none none "normal"
        none none none "never" =
      Except.ok ⟨[("text", SVal.str c1Text), ("icon_url", SVal.null)], none, none⟩ := by
  refine ⟨escape_quotes_id c1Text, by decide, ?_⟩
  have h := escape_quotes_id c1Text
  simp [build_payload_for_slack, attachStep, blocksStep, midSection, initialPayload,
        channelStep, optSetStr, optSetInt, iconStep, h, dictSet, optSVstr]

/-- C3 counterexample: calling `build_payload_for_slack` with every optional
input unset produces a payload in which the `icon_url` key is bound to null,
refuting the claim that no payload key is ever bound to a null value (and in
particular refuting it for `icon_url` with both icons unset). -/
theorem c3_counterexample_icon_url_null :
    build_payload_for_slack none none none none none none none none "normal"
        none none none "never" = Except.ok c3Out ∧
    ("icon_url", SVal.null) ∈ c3Out.payload := by
  constructor
  · simp [build_payload_for_slack, attachStep, blocksStep, midSection, initialPayload,
          channelStep, optSetStr, optSetInt, iconStep, dictSet, optSVstr, c3Out]
  · simp [c3Out]

/-- C3 (amended): if `build_payload_for_slack` succeeds, no key of the
payload is bound to null except `icon_url`; that key can only be null when
both `icon_emoji` and `icon_url` are unset, and it is always present (bound
to the given `icon_url` value, null included) whenever `icon_emoji` is
unset.  All other optional fields left unset are omitted entirely. -/
theorem c3_amended_null_only_icon_url
    (text channel thread_id username icon_url icon_emoji : Option String)
    (link_names : Option Int) (parse : Option String) (color : String)
    (attachments : Option (List Att)) (blocks : Option (List SVal))
    (message_id : Option String) (prepend_hash : String) (out : BuildOut)
    (hok : build_payload_for_slack text channel thread_id username icon_url icon_emoji
      link_names parse color attachments blocks message_id prepend_hash = Except.ok out) :
    (∀ k v, (k, v) ∈ out.payload → v = SVal.null →
      k = "icon_url" ∧ icon_emoji = none ∧ icon_url = none) ∧
    (icon_emoji = none → dictGet out.payload "icon_url" = some (optSVstr icon_url)) := by
  obtain ⟨d1, ha, hp, hb⟩ := build_ok_parts text channel thread_id username icon_url
    icon_emoji link_names parse color attachments blocks message_id prepend_hash out hok
  have midCase : ∀ k v, (k, v) ∈ midSection (initialPayload text color) channel thread_id
      username icon_url icon_emoji link_names parse message_id prepend_hash →
      v = SVal.null → k = "icon_url" ∧ icon_emoji = none ∧ icon_url = none := by
    intro k v hm hnull
    rcases mem_midSection_null _ _ _ _ _ _ _ _ _ _ _ hm hnull with hin | hic
    · exact absurd hnull (mem_initialPayload_null _ _ _ hin)
    · exact ⟨hic.1, hic.2.1, hic.2.2⟩
  constructor
  · intro k v hm hnull
    rw [hp] at hm
    rcases mem_blocksStep _ _ _ hm with hm | ⟨ys, hkv⟩
    · rcases attachStep_ok_cases _ _ _ _ ha with ⟨_, hd1, _⟩ | ⟨l, l1, hatts, hpl, hx, hd1⟩
      · rw [hd1] at hm
        exact midCase k v hm hnull
      · rw [hd1] at hm
        rcases mem_foldAppend _ _ _ hm with hm | ⟨ys, hkv⟩
        · by_cases hh : hasKey (midSection (initialPayload text color) channel thread_id
              username icon_url icon_emoji link_names parse message_id prepend_hash)
              "attachments" = true
          · rw [if_pos hh] at hm
            exact midCase k v hm hnull
          · rw [if_neg hh] at hm
            rcases mem_dictSet _ _ _ _ hm with hkv | hm
            · rw [Prod.mk.injEq] at hkv
              rw [hkv.2] at hnull
              simp at hnull
            · exact midCase k v hm hnull
        · rw [Prod.mk.injEq] at hkv
          rw [hkv.2] at hnull
          simp at hnull
    · rw [Prod.mk.injEq] at hkv
      rw [hkv.2] at hnull
      simp at hnull
  · intro hie
    subst hie
    rw [hp, blocksStep_fst_get_ne _ _ _ (by decide)]
    rcases attachStep_ok_cases _ _ _ _ ha with ⟨_, hd1, _⟩ | ⟨l, l1, hatts, hpl, hx, hd1⟩
    · rw [hd1]
      exact midSection_get_icon_url_none _ _ _ _ _ _ _ _ _
    · rw [hd1, foldAppend_get_ne _ _ _ (by decide)]
      by_cases hh : hasKey (midSection (initialPayload text color) channel thread_id
          username icon_url none link_names parse message_id prepend_hash)
          "attachments" = true
      · rw [if_pos hh]
        exact midSection_get_icon_url_none _ _ _ _ _ _ _ _ _
      · rw [if_neg hh, dictGet_dictSet_ne _ _ _ _ (by decide)]
        exact midSection_get_icon_url_none _ _ _ _ _ _ _ _ _

/-- C3 witness: the amended theorem applied to the all-unset call. -/
theorem c3_amended_witness : dictGet c3Out.payload "icon_url" = some (optSVstr none) :=
  (c3_amended_null_only_icon_url none none none none none none none none "normal"
    none none none "never" c3Out
    (c3_counterexample_icon_url_null.1)).2 rfl

/-- C4: the credential classifier of `do_notify_slack` is a priority-ordered
chain.  A token with two or more slashes always selects the new-style
webhook POST (no `Authorization` header) regardless of other content;
otherwise a token matching `xox[abp]-\S+` selects the WebAPI POST with a
bearer header, targeting the update endpoint iff the payload carries `ts`
and the post endpoint otherwise; otherwise the legacy webhook path is
selected, which fails with the configuration error exactly when the
supplied domain is falsy (absent or empty). -/
theorem c4_classifier_priority_chain (nw : NotifyWorld) (domain : Option String)
    (token : String) (payload : Dict) :
    (countSlash token ≥ 2 →
      (do_notify_slack nw domain token payload).1 =
        [NetOp.post (SLACK_INCOMING_WEBHOOK token)
          [("Content-Type", "application/json; charset=UTF-8"),
           ("Accept", "application/json")]
          (jsonify (SVal.dict payload))]) ∧
    (¬ countSlash token ≥ 2 → xoxMatch token = true →
      (do_notify_slack nw domain token payload).1 =
        [NetOp.post
          (if hasKey payload "ts" then SLACK_UPDATEMESSAGE_WEBAPI
           else SLACK_POSTMESSAGE_WEBAPI)
          [("Content-Type", "application/json; charset=UTF-8"),
           ("Accept", "application/json"), ("Authorization", "Bearer " ++ token)]
          (jsonify (SVal.dict payload))]) ∧
    (¬ countSlash token ≥ 2 → xoxMatch token = false → pyTruthyOptStr domain = false →
      do_notify_slack nw domain token payload =
        ([], Except.error (Outcome.failJson legacyTokenErrMsg))) ∧
    (¬ countSlash token ≥ 2 → xoxMatch token = false → pyTruthyOptStr domain = true →
      (do_notify_slack nw domain token payload).1 =
        [NetOp.post (OLD_SLACK_INCOMING_WEBHOOK (domain.getD "") token)
          [("Content-Type", "application/json; charset=UTF-8"),
           ("Accept", "application/json")]
          (jsonify (SVal.dict payload))]) := by
  refine ⟨?_, ?_, ?_, ?_⟩
  · intro h
    exact do_notify_trace nw domain token payload _ _ (classifyRoute_slashes _ _ _ h)
  · intro h1 h2
    exact do_notify_trace nw domain token payload _ _ (classifyRoute_xox _ _ _ h1 h2)
  · intro h1 h2 h3
    unfold do_notify_slack
    rw [classifyRoute_legacy_fail _ _ _ h1 h2 h3]
  · intro h1 h2 h3
    exact do_notify_trace nw domain token payload _ _ (classifyRoute_legacy _ _ _ h1 h2 h3)

/-- C4 witness: the slash branch at the concrete token `a/b/c`. -/
theorem c4_witness :
    (do_notify_slack ⟨500, "boom", SVal.null⟩ none "a/b/c" []).1 =
      [NetOp.post (SLACK_INCOMING_WEBHOOK "a/b/c")
        [("Content-Type", "application/json; charset=UTF-8"),
         ("Accept", "application/json")]
        (jsonify (SVal.dict []))] :=
  (c4_classifier_priority_chain ⟨500, "boom", SVal.null⟩ none "a/b/c" []).1 (by decide)

/-- C8: on a non-WebAPI (webhook) path, a non-200 failure message is built
only from the serialised payload, the fixed obscured webhook URL (the
constant template instantiated with `[obscured]`) and the transport error
message — an expression in which the token does not occur, so the failure
text is independent of the token value and can never contain it. -/
theorem c8_webhook_failure_token_free (nw : NotifyWorld) (domain : Option String)
    (token : String) (payload : Dict)
    (hroute : countSlash token ≥ 2 ∨ (xoxMatch token = false ∧ pyTruthyOptStr domain = true))
    (hs : nw.status ≠ 200) :
    (do_notify_slack nw domain token payload).2 =
      Except.error (Outcome.failJson
        (" failed to send " ++ jsonify (SVal.dict payload) ++ " to " ++
         SLACK_INCOMING_WEBHOOK "[obscured]" ++ ": " ++ nw.infoMsg)) := by
  have hcls : ∃ uri, classifyRoute domain token payload = Except.ok (uri, false) := by
    by_cases h2 : countSlash token ≥ 2
    · exact ⟨_, classifyRoute_slashes _ _ _ h2⟩
    · rcases hroute with h | ⟨hx, hd⟩
      · exact absurd h h2
      · exact ⟨_, classifyRoute_legacy _ _ _ h2 hx hd⟩
  obtain ⟨uri, hc⟩ := hcls
  have := do_notify_fail_result nw domain token payload uri false hc hs
  simpa using this

/-- C8 witness: a concrete new-style webhook token and a 500 response. -/
theorem c8_witness :
    (do_notify_slack ⟨500, "Gateway Timeout", SVal.null⟩ none "a/b/c" []).2 =
      Except.error (Outcome.failJson
        (" failed to send " ++ jsonify (SVal.dict []) ++ " to " ++
         SLACK_INCOMING_WEBHOOK "[obscured]" ++ ": " ++ "Gateway Timeout")) :=
  c8_webhook_failure_token_free ⟨500, "Gateway Timeout", SVal.null⟩ none "a/b/c" []
    (Or.inl (by decide)) (by decide)

/-- C6: for a non-None message text, color `"normal"` places the (escaped)
text as the top-level `text` field and creates no synthetic attachment —
the payload's attachment list, when present, is exactly the caller's; any
other color leaves no top-level `text` field and instead prepends exactly
one synthetic attachment carrying the text, the color and the
`mrkdwn_in=["text"]` markdown marker, followed by the caller's attachments. -/
theorem c6_color_text_placement
    (channel thread_id username icon_url icon_emoji : Option String)
    (link_names : Option Int) (parse : Option String) (color : String)
    (attachments : Option (List Att)) (blocks : Option (List SVal))
    (message_id : Option String) (prepend_hash : String) (t : String) (out : BuildOut)
    (hok : build_payload_for_slack (some t) channel thread_id username icon_url icon_emoji
      link_names parse color attachments blocks message_id prepend_hash = Except.ok out) :
    (color = "normal" →
      dictGet out.payload "text" = some (SVal.str (escape_quotes t)) ∧
      ((attachments = none ∧ dictGet out.payload "attachments" = none) ∨
       (∃ atts atts1, attachments = some atts ∧ processAll atts = Except.ok atts1 ∧
         dictGet out.payload "attachments" = some (SVal.arr (atts1.map SVal.dict))))) ∧
    (color ≠ "normal" →
      dictGet out.payload "text" = none ∧
      ∃ atts1, dictGet out.payload "attachments" =
          some (SVal.arr (synthAttachment t color :: atts1.map SVal.dict)) ∧
        ((attachments = none ∧ atts1 = []) ∨
         (∃ atts, attachments = some atts ∧ processAll atts = Except.ok atts1))) := by
  obtain ⟨d1, ha, hp, hb⟩ := build_ok_parts (some t) channel thread_id username icon_url
    icon_emoji link_names parse color attachments blocks message_id prepend_hash out hok
  have hd1_text : dictGet d1 "text" = dictGet (initialPayload (some t) color) "text" := by
    rcases attachStep_ok_cases _ _ _ _ ha with ⟨_, hd1, _⟩ | ⟨l, l1, hatts, hpl, hx, hd1⟩
    · rw [hd1, midSection_get_text]
    · rw [hd1, foldAppend_get_ne _ _ _ (by decide)]
      by_cases hh : hasKey (midSection (initialPayload (some t) color) channel thread_id
          username icon_url icon_emoji link_names parse message_id prepend_hash)
          "attachments" = true
      · rw [if_pos hh, midSection_get_text]
      · rw [if_neg hh, dictGet_dictSet_ne _ _ _ _ (by decide), midSection_get_text]
  have hout_text : dictGet out.payload "text" =
      dictGet (initialPayload (some t) color) "text" := by
    rw [hp, blocksStep_fst_get_ne _ _ _ (by decide), hd1_text]
  have hout_att : dictGet out.payload "attachments" = dictGet d1 "attachments" := by
    rw [hp, blocksStep_fst_get_ne _ _ _ (by decide)]
  constructor
  · intro hc
    subst hc
    constructor
    · rw [hout_text, initialPayload_get_text_normal]
    · rcases attachStep_ok_cases _ _ _ _ ha with ⟨hatts, hd1, _⟩ | ⟨l, l1, hatts, hpl, hx, hd1⟩
      · left
        refine ⟨hatts, ?_⟩
        rw [hout_att, hd1, midSection_get_attachments, initialPayload_get_attachments_normal]
      · right
        refine ⟨l, l1, hatts, hpl, ?_⟩
        have hmidn : dictGet (midSection (initialPayload (some t) "normal") channel thread_id
            username icon_url icon_emoji link_names parse message_id prepend_hash)
            "attachments" = none := by
          rw [midSection_get_attachments, initialPayload_get_attachments_normal]
        have hh : ¬ hasKey (midSection (initialPayload (some t) "normal") channel thread_id
            username icon_url icon_emoji link_names parse message_id prepend_hash)
            "attachments" = true := by
          simp [hasKey, hmidn]
        rw [hout_att, hd1, if_neg hh,
            foldAppend_get_attachments l1 _ [] (by rw [dictGet_dictSet_eq])]
        simp
  · intro hc
    constructor
    · rw [hout_text, initialPayload_get_text_color t color hc]
    · rcases attachStep_ok_cases _ _ _ _ ha with ⟨hatts, hd1, _⟩ | ⟨l, l1, hatts, hpl, hx, hd1⟩
      · refine ⟨[], ?_, Or.inl ⟨hatts, rfl⟩⟩
        rw [hout_att, hd1, midSection_get_attachments,
            initialPayload_get_attachments_color t color hc]
        simp
      · refine ⟨l1, ?_, Or.inr ⟨l, hatts, hpl⟩⟩
        have hmids : dictGet (midSection (initialPayload (some t) color) channel thread_id
            username icon_url icon_emoji link_names parse message_id prepend_hash)
            "attachments" = some (SVal.arr [synthAttachment t color]) := by
          rw [midSection_get_attachments, initialPayload_get_attachments_color t color hc]
        have hh : hasKey (midSection (initialPayload (some t) color) channel thread_id
            username icon_url icon_emoji link_names parse message_id prepend_hash)
            "attachments" = true := by
          simp [hasKey, hmids]
        rw [hout_att, hd1, if_pos hh, foldAppend_get_attachments l1 _ _ hmids]
        simp

/-- C6 witness: `text="x"`, `color="#ff00aa"`, everything else unset. -/
theorem c6_witness : dictGet c6Out.payload "text" = none :=
  ((c6_color_text_placement none none none none none none none "#ff00aa" none none
    none "never" "x" c6Out (by rfl)).2 (by decide)).1

/-- C7: for every supplied attachment, an existing `fallback` is kept (as
its post-escaping value), a missing `fallback` is defaulted to the
(escaped) `text` value, and every field outside the escapable five is
preserved unchanged. -/
theorem c7_attachment_fallback_defaulting
    (text channel thread_id username icon_url icon_emoji : Option String)
    (link_names : Option Int) (parse : Option String) (color : String)
    (atts : List Att) (blocks : Option (List SVal))
    (message_id : Option String) (prepend_hash : String) (out : BuildOut)
    (hok : build_payload_for_slack text channel thread_id username icon_url icon_emoji
      link_names parse color (some atts) blocks message_id prepend_hash = Except.ok out) :
    ∃ atts1, out.attachmentsAfter = some atts1 ∧
      List.Forall₂ (fun a a' =>
        (∀ f, dictGet a "fallback" = some (SVal.str f) →
          dictGet a' "fallback" = some (SVal.str (escape_quotes f))) ∧
        (hasKey a "fallback" = false → ∀ t, dictGet a "text" = some (SVal.str t) →
          dictGet a' "fallback" = some (SVal.str (escape_quotes t))) ∧
        (∀ k, k ∉ attachment_keys_to_escape → dictGet a' k = dictGet a k)) atts atts1 := by
  obtain ⟨d1, ha, hp, hb⟩ := build_ok_parts text channel thread_id username icon_url
    icon_emoji link_names parse color (some atts) blocks message_id prepend_hash out hok
  rcases attachStep_ok_cases _ _ _ _ ha with ⟨hnone, _, _⟩ | ⟨l, l1, hl, hpl, hx, hd1⟩
  · exact absurd hnone (by simp)
  · obtain rfl : l = atts := (Option.some.inj hl).symm
    refine ⟨l1, hx, ?_⟩
    exact List.Forall₂.imp (fun a b hr => processAttachment_field_facts a b hr)
      (processAll_forall2 _ _ hpl)

/-- C7 witness: one attachment with only a `text` field. -/
theorem c7_witness :
    ∃ atts1, c7Out.attachmentsAfter = some atts1 ∧
      List.Forall₂ (fun a a' =>
        (∀ f, dictGet a "fallback" = some (SVal.str f) →
          dictGet a' "fallback" = some (SVal.str (escape_quotes f))) ∧
        (hasKey a "fallback" = false → ∀ t, dictGet a "text" = some (SVal.str t) →
          dictGet a' "fallback" = some (SVal.str (escape_quotes t))) ∧
        (∀ k, k ∉ attachment_keys_to_escape → dictGet a' k = dictGet a k))
        [c7Att] atts1 :=
  c7_attachment_fallback_defaulting none none none none none none none none "normal"
    [c7Att] none none "never" c7Out (by rfl)

/-- C9: an attachment with neither a `fallback` nor a `text` key makes
`build_payload_for_slack` raise an uncaught `KeyError('text')` from the
unguarded fallback-defaulting lookup (stated for attachment lists whose
escapable fields are strings, so that no other exception fires first). -/
theorem c9_missing_text_keyerror
    (text channel thread_id username icon_url icon_emoji : Option String)
    (link_names : Option Int) (parse : Option String) (color : String)
    (atts : List Att) (blocks : Option (List SVal))
    (message_id : Option String) (prepend_hash : String)
    (hwt : ∀ a ∈ atts, attWellTyped a = true)
    (hx : ∃ a ∈ atts, hasKey a "fallback" = false ∧ hasKey a "text" = false) :
    build_payload_for_slack text channel thread_id username icon_url icon_emoji
      link_names parse color (some atts) blocks message_id prepend_hash =
      Except.error (PyErr.keyError "text") :=
  build_error_of_processAll_error text channel thread_id username icon_url icon_emoji
    link_names parse color atts blocks message_id prepend_hash _
    (processAll_keyError atts hwt hx)

/-- C9 witness: a single empty attachment dictionary. -/
theorem c9_witness :
    build_payload_for_slack none none none none none none none none "normal"
      (some [[]]) none none "never" = Except.error (PyErr.keyError "text") :=
  c9_missing_text_keyerror none none none none none none none none "normal" [[]]
    none none "never" (by decide) (by decide)

/-- C10: the caller-visible post-state of the attachment list consists of
the caller's own dictionaries mutated in place — each either unchanged
(when it already had a `fallback`) or with a `fallback` binding inserted —
and these same dictionaries are what the payload's attachment list holds
after any synthetic prefix; the caller's blocks are returned unchanged
(`recursive_escape_quotes` builds a fresh tree). -/
theorem c10_attachments_mutated_blocks_untouched
    (text channel thread_id username icon_url icon_emoji : Option String)
    (link_names : Option Int) (parse : Option String) (color : String)
    (attachments : Option (List Att)) (blocks : Option (List SVal))
    (message_id : Option String) (prepend_hash : String) (out : BuildOut)
    (hok : build_payload_for_slack text channel thread_id username icon_url icon_emoji
      link_names parse color attachments blocks message_id prepend_hash = Except.ok out) :
    (∀ atts, attachments = some atts →
      ∃ atts1, out.attachmentsAfter = some atts1 ∧
        List.Forall₂ (fun a a' =>
          (a' = a ∧ hasKey a "fallback" = true) ∨
          (hasKey a "fallback" = false ∧
            ∃ v, dictGet a "text" = some v ∧ a' = dictSet a "fallback" v)) atts atts1 ∧
        ∃ pre, dictGet out.payload "attachments" =
          some (SVal.arr (pre ++ atts1.map SVal.dict))) ∧
    out.blocksAfter = blocks := by
  obtain ⟨d1, ha, hp, hb⟩ := build_ok_parts text channel thread_id username icon_url
    icon_emoji link_names parse color attachments blocks message_id prepend_hash out hok
  constructor
  · intro atts hatts
    subst hatts
    rcases attachStep_ok_cases _ _ _ _ ha with ⟨hnone, _, _⟩ | ⟨l, l1, hl, hpl, hx, hd1⟩
    · exact absurd hnone (by simp)
    · obtain rfl : l = atts := (Option.some.inj hl).symm
      refine ⟨l1, hx, ?_, ?_⟩
      · exact List.Forall₂.imp (fun a b hr => processAttachment_ok_cases a b hr)
          (processAll_forall2 _ _ hpl)
      · have hout_att : dictGet out.payload "attachments" = dictGet d1 "attachments" := by
          rw [hp, blocksStep_fst_get_ne _ _ _ (by decide)]
        rcases initialPayload_get_attachments_cases text color with hinit | ⟨xs, hinit⟩
        · have hmidn : dictGet (midSection (initialPayload text color) channel thread_id
              username icon_url icon_emoji link_names parse message_id prepend_hash)
              "attachments" = none := by
            rw [midSection_get_attachments, hinit]
          have hh : ¬ hasKey (midSection (initialPayload text color) channel thread_id
              username icon_url icon_emoji link_names parse message_id prepend_hash)
              "attachments" = true := by
            simp [hasKey, hmidn]
          refine ⟨[], ?_⟩
          rw [hout_att, hd1, if_neg hh,
              foldAppend_get_attachments l1 _ [] (by rw [dictGet_dictSet_eq])]
        · have hmids : dictGet (midSection (initialPayload text color) channel thread_id
              username icon_url icon_emoji link_names parse message_id prepend_hash)
              "attachments" = some (SVal.arr xs) := by
            rw [midSection_get_attachments, hinit]
          have hh : hasKey (midSection (initialPayload text color) channel thread_id
              username icon_url icon_emoji link_names parse message_id prepend_hash)
              "attachments" = true := by
            simp [hasKey, hmids]
          refine ⟨xs, ?_⟩
          rw [hout_att, hd1, if_pos hh, foldAppend_get_attachments l1 _ _ hmids]
  · rw [hb, blocksStep_snd]

/-- C10 witness: one attachment without `fallback` plus one block. -/
theorem c10_witness :
    ∃ atts1, c10Out.attachmentsAfter = some atts1 ∧
      List.Forall₂ (fun a a' =>
        (a' = a ∧ hasKey a "fallback" = true) ∨
        (hasKey a "fallback" = false ∧
          ∃ v, dictGet a "text" = some v ∧ a' = dictSet a "fallback" v)) [c10Att] atts1 ∧
      ∃ pre, dictGet c10Out.payload "attachments" =
        some (SVal.arr (pre ++ atts1.map SVal.dict)) :=
  (c10_attachments_mutated_blocks_untouched none none none none none none none none
    "normal" (some [c10Att]) (some [SVal.dict [("type", SVal.str "divider")]]) none
    "never" c10Out (by rfl)).1 [c10Att] rfl

/-- C5: when an edit-target timestamp is supplied and the fetched message
agrees with the requested values on every compared key (`icon_url`,
`icon_emoji`, `link_names`, `color`, `attachments`, `blocks` — the message
text is not among them, and nothing below constrains `p.msg`), `main` exits
reporting `changed = false` with the fetched `ts` and `channel`, and the
network trace contains no write: the only request is the history GET. -/
theorem c5_edit_diff_unchanged_no_write (p : Params) (cm : Bool) (w : World)
    (mid : String) (d : Dict) (m : Dict) (tsv chv : SVal)
    (hup : p.upload_file = none)
    (hmid : p.message_id = some mid)
    (hcolor : colorBad p.color = false)
    (hstatus : w.histStatus = 200)
    (hbody : w.histBody = SVal.dict d)
    (hok2 : ¬ dictGet d "ok" = some (SVal.bool false))
    (hmsgs : dictGet d "messages" = some (SVal.arr [SVal.dict m]))
    (heq : ∀ k ∈ editCompareKeys, dictGetD m k SVal.null = paramVal p k)
    (hts : dictGet m "ts" = some tsv)
    (hch : dictGet m "channel" = some chv) :
    (mainRun p cm w).2 = Outcome.exitJson
      [("changed", SVal.bool false), ("ts", tsv), ("channel", chv)] ∧
    netWrites (mainRun p cm w).1 = [] := by
  have hgsm := get_slack_message_ok w.histStatus w.histBody p.token p.channel mid d m
    hstatus hbody hok2 hmsgs
  have hchanged := editDiffChanged_false_of m p heq
  have hmain : mainRun p cm w =
      ([NetOp.get SLACK_CONVERSATIONS_HISTORY_WEBAPI
          [("channel", qstr p.channel), ("ts", mid), ("limit", "1"), ("inclusive", "true")]
          [("Content-Type", "application/json; charset=UTF-8"),
           ("Accept", "application/json"), ("Authorization", "Bearer " ++ p.token)]],
       Outcome.exitJson [("changed", SVal.bool false), ("ts", tsv), ("channel", chv)]) := by
    unfold mainRun
    rw [hup]
    simp only [hcolor, hmid, hgsm, hchanged, hts, hch, Bool.not_false, Bool.or_true,
      Bool.false_eq_true, if_false, if_true]
  rw [hmain]
  exact ⟨rfl, rfl⟩

/-- C5 witness: the `c5Params`/`c5World` scenario (the fetched message
matches on every compared key while the message text differs). -/
theorem c5_witness :
    (mainRun c5Params false c5World).2 = Outcome.exitJson
      [("changed", SVal.bool false), ("ts", SVal.str "123.456"),
       ("channel", SVal.str "C0AA")] :=
  (c5_edit_diff_unchanged_no_write c5Params false c5World "123.456"
    [("ok", SVal.bool true), ("messages", SVal.arr [SVal.dict c5Msg])] c5Msg
    (SVal.str "123.456") (SVal.str "C0AA") rfl rfl (by decide) rfl rfl (by decide)
    (by decide) (by decide) (by decide) (by decide)).1

/-- C2 (code bug): the upload branch of `main` runs before every check-mode
test, so with `check_mode = true` and an upload request the module still
performs network writes: evaluating `main` on `c2Params`/`c2World` in check
mode issues the file-content POST and the upload-completion POST, and even
reports success.  The module's own documentation declares full check-mode
support, and the spec says a dry run never performs a network write. -/
theorem c2_upload_ignores_check_mode :
    netWrites (mainRun c2Params true c2World).1 =
      [NetOp.post "https://up.example/u1" [("Content-Type", "application/octet-stream")] "abc",
       NetOp.post SLACK_COMPLETE_UPLOAD_EXTERNAL
         [("Authorization", "Bearer xoxb-tok"), ("Content-Type", "application/json")]
         c2CompleteBody] ∧
    (mainRun c2Params true c2World).2 = Outcome.exitJson
      [("changed", SVal.bool true), ("msg", SVal.str "File uploaded successfully"),
       ("upload_response", SVal.dict [("ok", SVal.bool true)])] := by
  exact ⟨rfl, rfl⟩

end Slack
